import Mathlib

/-!
Verification development for the `learning` Django app
(`learning/models.py`, `learning/views.py`).

The program state is a relational database, modelled as lists of rows.
Python floats are modelled as exact rationals (the progress arithmetic is
small-denominator percentage arithmetic), Django `DateTimeField` values as
natural-number timestamps, and UUID primary keys as natural numbers; the
string form `str(uuid)` is modelled by an injective `uuidStr` function.
Python `int(x)` (truncation toward zero) is `pyInt`.

Each HTTP handler is translated as a function from the database (plus the
relevant cache value and request data) to its result; handlers that write
also return the new database.  Django query-set and ORM operations are
translated as list operations: `.filter` is `List.filter`, `.first()` is
`List.find?`, `get_or_create` / `update_or_create` look the row up and
either update the first match in place or append a freshly created row.
-/

set_option allowUnsafeReducibility true
attribute [local semireducible] Rat.mul Rat.inv Rat.add Rat.sub

/-- Python `int(q)` for a float `q`: truncation toward zero. -/
def pyInt (q : ℚ) : ℤ := if 0 ≤ q then ⌊q⌋ else ⌈q⌉

/-- Replace the first element satisfying `p` by its image under `f`
(the effect of mutating the object found by `.find?` and saving it). -/
def replaceFirst (p : α → Bool) (f : α → α) : List α → List α
  | [] => []
  | a :: as => if p a then f a :: as else a :: replaceFirst p f as

/-- Lookup in a Python dict built by a comprehension: the value bound to
the last pair with the given key (later comprehension entries overwrite
earlier ones). -/
def dictGet [BEq κ] (m : List (κ × α)) (k : κ) : Option α :=
  ((m.filter (fun e => e.1 == k)).getLast?).map (fun e => e.2)

/-- Clamp a Python slice endpoint into `[0, len]`, resolving negative
indices from the end of the list. -/
def pyBound (len : Nat) (i : Int) : Nat :=
  if i < 0 then ((len : Int) + i).toNat else min i.toNat len

/-- Python list slicing `l[a:b]`. -/
def pySlice (l : List α) (a b : Int) : List α :=
  (l.take (pyBound l.length b)).drop (pyBound l.length a)

/-- Model of `str(uuid)` on a UUID primary key. -/
def uuidStr (n : Nat) : String := "uuid-" ++ toString n

/-- A Python dict key as it occurs in this code base: either a raw UUID
object or its string form.  In Python a UUID never compares equal to a
string, which `DecidableEq` on this sum type reproduces. -/
inductive PyKey where
  | uuid (n : Nat)
  | str (s : String)
deriving DecidableEq, Repr

/-! ## Data model (`learning/models.py`) -/

/-- Row of `LearningPath`. -/
structure LearningPathRow where
  id : Nat
  title : String
  level : String
  time : String
  thumbnail : String
  is_published : Bool
  description : String
  certificate_url : String
deriving DecidableEq, Repr

/-- Row of `InstituteBatchLearningPath`. -/
structure MappingRow where
  id : Nat
  institution : String
  learning_path_id : Nat
  batch : String
deriving DecidableEq, Repr

/-- Row of `Module`. -/
structure ModuleRow where
  module_id : Nat
  learning_path_id : Nat
  title : String
  description : String
deriving DecidableEq, Repr

/-- Row of `Lecture`. -/
structure LectureRow where
  lecture_id : Nat
  module_id : Nat
  title : String
  content : String
  video_url : Option String
deriving DecidableEq, Repr

/-- Row of `Assignment` (one-to-one with `Module`). -/
structure AssignmentRow where
  id : Nat
  module_id : Nat
  name : String
  description : String
  total_marks : Int
  total_questions : Int
  attempts_count : Int
deriving DecidableEq, Repr

/-- Row of `Assessment` (one-to-one with `LearningPath`). -/
structure AssessmentRow where
  id : Nat
  learning_path_id : Nat
  name : String
  description : String
  total_marks : Int
  total_questions : Int
  total_duration : Int
  total_qualifying_percentage : ℚ
  exam_type : String
  password_exists : Bool
  tab_switches_allowed : Bool
  no_of_tab_switches : Int
  is_fullscreen : Bool
  shuffle : Bool
  voice_monitoring : Bool
  face_proctoring : Bool
  electronic_monitoring : Bool
deriving DecidableEq, Repr

/-- Row of `LectureProgress` (`unique_together (user_id, lecture)`). -/
structure LectureProgressRow where
  user_id : String
  lecture_id : Nat
  is_viewed : Bool
  completed_at : Option Nat
deriving DecidableEq, Repr

/-- Row of `ModuleProgress` (`unique_together (user_id, module)`). -/
structure ModuleProgressRow where
  user_id : String
  module_id : Nat
  progress : ℚ
  is_completed : Bool
deriving DecidableEq, Repr

/-- Row of `LearningPathProgress` (`unique_together (user_id, learning_path)`). -/
structure LearningPathProgressRow where
  user_id : String
  learning_path_id : Nat
  progress : ℚ
  started_at : Nat
  updated_at : Nat
  is_completed : Bool
  completed_at : Option Nat
deriving DecidableEq, Repr

/-- Row of `AssignmentAttempt`. -/
structure AssignmentAttemptRow where
  user_id : String
  assignment_id : Nat
  status : String
  score : Option Int
  attempted_at : Nat
deriving DecidableEq, Repr

/-- Row of `AssessmentAttempt`. -/
structure AssessmentAttemptRow where
  user_id : String
  assessment_id : Nat
  attempt_number : Int
  score : Option ℚ
  status : String
  attempted_at : Nat
deriving DecidableEq, Repr

/-- The relational store backing the app: one list of rows per model. -/
structure DB where
  learning_paths : List LearningPathRow
  mappings : List MappingRow
  modules : List ModuleRow
  lectures : List LectureRow
  assignments : List AssignmentRow
  assessments : List AssessmentRow
  lecture_progress : List LectureProgressRow
  module_progress : List ModuleProgressRow
  learning_path_progress : List LearningPathProgressRow
  assignment_attempts : List AssignmentAttemptRow
  assessment_attempts : List AssessmentAttemptRow
deriving DecidableEq, Repr

/-- The empty database. -/
def emptyDB : DB := ⟨[], [], [], [], [], [], [], [], [], [], []⟩

/-!
## `LearningPathProgress.save` (`models.py` lines 131-139)

`models.py` line 3 is `from datetime import timezone`, so the
`timezone.now()` call inside `save` raises `AttributeError`
(`datetime.timezone` has no attribute `now`): the save fails whenever
`progress == 100`, `is_completed` is false and `completed_at` is unset.
A failed save is `none`; the row is not written in that case.
`super().save()` refreshes the `auto_now` field `updated_at` to the
current time `t`.
-/

/-- Model of `LearningPathProgress.save`.  Returns the row as stored, or
`none` when the broken `timezone.now()` call raises. -/
def LearningPathProgressRow.save (r : LearningPathProgressRow) (t : Nat) :
    Option LearningPathProgressRow :=
  if r.progress = 100 ∧ r.is_completed = false then
    match r.completed_at with
    | none => none
    | some _ => some { r with is_completed := true, updated_at := t }
  else if r.progress < 100 then
    some { r with is_completed := false, completed_at := none, updated_at := t }
  else
    some { r with updated_at := t }

/-! ## Progress toggle (`views.py` `update_learning_path_progress`) -/

/-- Predicate used by the `(user_id, lecture)` lookups. -/
def lectPred (user : String) (lid : Nat) (r : LectureProgressRow) : Bool :=
  r.user_id == user && r.lecture_id == lid

/-- Predicate used by the `(user_id, module)` lookups. -/
def modPred (user : String) (mid : Nat) (r : ModuleProgressRow) : Bool :=
  r.user_id == user && r.module_id == mid

/-- Predicate used by the `(user_id, learning_path)` lookups. -/
def lppPred (user : String) (pid : Nat) (r : LearningPathProgressRow) : Bool :=
  r.user_id == user && r.learning_path_id == pid

/-- The lecture progress row after the toggle step: created viewed when
absent, otherwise flipped (viewed rows are un-viewed and cleared,
un-viewed rows are viewed and stamped with the current time). -/
def toggleRow (old : Option LectureProgressRow) (user : String) (lid t : Nat) :
    LectureProgressRow :=
  match old with
  | none => ⟨user, lid, true, some t⟩
  | some r =>
      if r.is_viewed then { r with is_viewed := false, completed_at := none }
      else { r with is_viewed := true, completed_at := some t }

/-- The `get_or_create` / toggle / `save` block (`views.py` 163-177):
returns the row as saved together with the updated database. -/
def dbToggleLecture (db : DB) (user : String) (lid t : Nat) :
    LectureProgressRow × DB :=
  match db.lecture_progress.find? (lectPred user lid) with
  | none =>
      let nr : LectureProgressRow := ⟨user, lid, true, some t⟩
      (nr, { db with lecture_progress := db.lecture_progress ++ [nr] })
  | some r =>
      let nr := toggleRow (some r) user lid t
      (nr, { db with lecture_progress :=
               replaceFirst (lectPred user lid) (fun _ => nr) db.lecture_progress })

/-- `LectureProgress.objects.filter(user_id=..., lecture__in=lectures,
is_viewed=True).count()`. -/
def viewedRowCount (db : DB) (user : String) (ls : List LectureRow) : Nat :=
  (db.lecture_progress.filter (fun r =>
    r.user_id == user && ls.any (fun l => l.lecture_id == r.lecture_id) && r.is_viewed)).length

/-- The module percentage as the handler computes it (both for the owning
module, lines 179-199, and inside the path loop, lines 207-221):
`(viewed / total) * 100`, and `0` when the module has no lectures. -/
def moduleValue (db : DB) (user : String) (mid : Nat) : ℚ :=
  if 0 < (db.lectures.filter (fun l => l.module_id == mid)).length then
    ((viewedRowCount db user (db.lectures.filter (fun l => l.module_id == mid)) : ℚ)
      / ((db.lectures.filter (fun l => l.module_id == mid)).length : ℚ)) * 100
  else 0

/-- The path percentage (`views.py` 201-225): the unweighted mean of the
freshly recomputed module percentages, `0` when the path has no modules. -/
def pathMean (db : DB) (user : String) (pid : Nat) : ℚ :=
  if 0 < (db.modules.filter (fun m => m.learning_path_id == pid)).length then
    ((db.modules.filter (fun m => m.learning_path_id == pid)).map
      (fun m => moduleValue db user m.module_id)).sum
      / ((db.modules.filter (fun m => m.learning_path_id == pid)).length : ℚ)
  else 0

/-- `ModuleProgress.objects.update_or_create(...)` (`views.py` 192-196). -/
def upsertModuleProgress (db : DB) (user : String) (mid : Nat) (v : ℚ) (c : Bool) : DB :=
  match db.module_progress.find? (modPred user mid) with
  | some _ =>
      let upd := fun (r : ModuleProgressRow) => { r with progress := v, is_completed := c }
      { db with module_progress := replaceFirst (modPred user mid) upd db.module_progress }
  | none =>
      { db with module_progress := db.module_progress ++ [⟨user, mid, v, c⟩] }

/-- `LearningPathProgress.objects.update_or_create(...)` (`views.py`
227-231).  Both the update and the create branch go through the custom
`save`, so the whole upsert fails (`none`) when `save` raises. -/
def upsertLPP (db : DB) (user : String) (pid : Nat) (v : ℚ) (t : Nat) : Option DB :=
  match db.learning_path_progress.find? (lppPred user pid) with
  | none =>
      match LearningPathProgressRow.save ⟨user, pid, v, t, t, false, none⟩ t with
      | none => none
      | some r =>
          some { db with learning_path_progress := db.learning_path_progress ++ [r] }
  | some r =>
      match LearningPathProgressRow.save { r with progress := v } t with
      | none => none
      | some r1 =>
          some { db with learning_path_progress :=
                   replaceFirst (lppPred user pid) (fun _ => r1) db.learning_path_progress }

/-- Body of the toggle endpoint's JSON response (`views.py` 233-246). -/
structure ToggleResponse where
  is_viewed : Bool
  completed_at : Option Nat
  module_progress : Int
  module_is_completed : Bool
  path_progress : Int
deriving DecidableEq, Repr

/-- Result of one invocation of the toggle endpoint.  `notFound` is the
404 for a missing lecture; `error` is the uncaught exception path (the
broken `timezone.now()` in `LearningPathProgress.save`, or a dangling
foreign key) — the writes already performed are kept, there being no
transaction around the handler. -/
inductive ToggleOutcome where
  | notFound
  | error (db : DB)
  | ok (db : DB) (resp : ToggleResponse)
deriving DecidableEq, Repr

/-- The database after an outcome that got past the lecture lookup. -/
def ToggleOutcome.okDb : ToggleOutcome → Option DB
  | .ok db _ => some db
  | _ => none

/-- The database after the module-progress step (`views.py` 179-199): the
recomputed percentage is upserted only when the module has lectures. -/
def dbAfterModule (db : DB) (user : String) (lid t mid : Nat) : DB :=
  if 0 < ((dbToggleLecture db user lid t).2.lectures.filter
      (fun l => l.module_id == mid)).length then
    upsertModuleProgress (dbToggleLecture db user lid t).2 user mid
      (moduleValue (dbToggleLecture db user lid t).2 user mid)
      (decide (moduleValue (dbToggleLecture db user lid t).2 user mid = 100))
  else (dbToggleLecture db user lid t).2

/-- The toggle endpoint `update_learning_path_progress` (`views.py`
153-246), at current time `t`: toggles the lecture progress row, recomputes
and upserts the owning module's progress, recomputes and upserts the owning
path's progress, and reports the three results. -/
def update_learning_path_progress (db : DB) (user : String) (lid t : Nat) :
    ToggleOutcome :=
  match db.lectures.find? (fun l => l.lecture_id == lid) with
  | none => .notFound
  | some lecture =>
    match db.modules.find? (fun m => m.module_id == lecture.module_id) with
    | none => .error db
    | some module =>
      match db.learning_paths.find? (fun p => p.id == module.learning_path_id) with
      | none => .error db
      | some lp =>
        match upsertLPP (dbAfterModule db user lid t module.module_id) user lp.id
            (pathMean (dbAfterModule db user lid t module.module_id) user lp.id) t with
        | none => .error (dbAfterModule db user lid t module.module_id)
        | some db3 =>
            .ok db3 ⟨(dbToggleLecture db user lid t).1.is_viewed,
                     (dbToggleLecture db user lid t).1.completed_at,
                     pyInt (moduleValue (dbToggleLecture db user lid t).2 user module.module_id),
                     decide (moduleValue (dbToggleLecture db user lid t).2 user module.module_id = 100),
                     pyInt (pathMean (dbAfterModule db user lid t module.module_id) user lp.id)⟩

/-! ## Detail assembly (`views.py` `learning_path_detail`)

The endpoint builds a nested JSON representation of a path.  On a cache
miss it assembles the full response from the database and then strips the
user-specific fields for the cache.  Crucially, `cache_data =
response.copy()` (`views.py` 630) is a *shallow* copy: only the top-level
dict is duplicated, while the nested module / lecture / assignment /
assessment dicts stay shared between `cache_data` and `response`.  The
`pop` calls on the nested dicts (`views.py` 633-647) therefore also
mutate the response that is returned (`views.py` 656): the returned miss
response keeps its top-level `progress` / `updated_at` (those two `pop`s
hit only the copied top-level dict, `views.py` 631-632) but loses every
nested user field.  On a cache hit the handler re-reads the user-specific
data from the database and overlays it onto the cached skeleton.  Both
branches build the same per-user lookup dicts (`views.py` duplicates that
code verbatim), captured here by `UserCtx` / `buildUserCtx`.  A nested
user field is modelled as an `Option`-valued struct field where `none`
means the key is absent from the dict and `some v` that it is present
with value `v` (itself possibly Python `None`, hence the nested
`Option`s). -/

/-- One entry of the `lectures` list of a module in the response.  The
user fields `is_viewed` / `completed_at` are `none` when the key has been
popped off the dict. -/
structure LectureJson where
  lecture_id : String
  title : String
  content : String
  video_url : Option String
  is_viewed : Option Bool
  completed_at : Option (Option Nat)
deriving DecidableEq, Repr

/-- The `assignment` object of a module in the response.  Note the `id` is
`str(assignment.id)`, a string. -/
structure AssignmentJson where
  id : String
  name : String
  description : String
  total_marks : Int
  total_questions : Int
  attempts : Int
  status : Option String
  score : Option (Option Int)
  attempted_at : Option (Option Nat)
deriving DecidableEq, Repr

/-- One entry of the `modules` list in the response.  `progress` /
`is_completed` are `none` when the key has been popped off the dict. -/
structure ModuleJson where
  module_id : String
  title : String
  description : String
  progress : Option ℚ
  is_completed : Option Bool
  lectures : List LectureJson
  assignment : Option AssignmentJson
deriving DecidableEq, Repr

/-- The `assessment` object in the response.  Its `id` is the raw UUID
(the miss path does not stringify it). -/
structure AssessmentJson where
  id : Nat
  name : String
  description : String
  total_marks : Int
  total_questions : Int
  total_duration : Int
  total_qualifying_percentage : ℚ
  exam_type : String
  password_exists : Bool
  tab_switches_allowed : Bool
  no_of_tab_switches : Int
  is_fullscreen : Bool
  shuffle : Bool
  voice_monitoring : Bool
  face_proctoring : Bool
  electronic_monitoring : Bool
  attempt_number : Option Int
  score : Option (Option ℚ)
  status : Option String
  attempted_at : Option (Option Nat)
deriving DecidableEq, Repr

/-- The full detail response. -/
structure DetailResponse where
  id : String
  title : String
  level : String
  certificate_url : String
  time : String
  thumbnail : String
  is_published : Bool
  description : String
  progress : ℚ
  updated_at : Option Nat
  total_lectures : Nat
  total_assignments : Nat
  modules : List ModuleJson
  assessment : Option AssessmentJson
deriving DecidableEq, Repr

/-- Cached skeleton of a lecture (`is_viewed` / `completed_at` popped). -/
structure LectureCache where
  lecture_id : String
  title : String
  content : String
  video_url : Option String
deriving DecidableEq, Repr

/-- Cached skeleton of an assignment (`status` / `score` / `attempted_at`
popped). -/
structure AssignmentCache where
  id : String
  name : String
  description : String
  total_marks : Int
  total_questions : Int
  attempts : Int
deriving DecidableEq, Repr

/-- Cached skeleton of a module (`progress` / `is_completed` popped). -/
structure ModuleCache where
  module_id : String
  title : String
  description : String
  lectures : List LectureCache
  assignment : Option AssignmentCache
deriving DecidableEq, Repr

/-- Cached skeleton of an assessment (attempt fields popped). -/
structure AssessmentCache where
  id : Nat
  name : String
  description : String
  total_marks : Int
  total_questions : Int
  total_duration : Int
  total_qualifying_percentage : ℚ
  exam_type : String
  password_exists : Bool
  tab_switches_allowed : Bool
  no_of_tab_switches : Int
  is_fullscreen : Bool
  shuffle : Bool
  voice_monitoring : Bool
  face_proctoring : Bool
  electronic_monitoring : Bool
deriving DecidableEq, Repr

/-- Cached structural skeleton of the detail response (`progress` /
`updated_at` popped, per-entity user fields popped recursively). -/
structure DetailCache where
  id : String
  title : String
  level : String
  certificate_url : String
  time : String
  thumbnail : String
  is_published : Bool
  description : String
  total_lectures : Nat
  total_assignments : Nat
  modules : List ModuleCache
  assessment : Option AssessmentCache
deriving DecidableEq, Repr

/-- The user-specific lookups both branches of the handler build from the
database (`views.py` 457-477 and 525-545). -/
structure UserCtx where
  lecMap : List (String × LectureProgressRow)
  modMap : List (String × ModuleProgressRow)
  lpProg : Option LearningPathProgressRow
  asgMap : List (PyKey × AssignmentAttemptRow)
  assAttempt : Option AssessmentAttemptRow
deriving DecidableEq, Repr

/-- `order_by('-attempt_number').first()`: an attempt with maximal
`attempt_number` (keeping the earlier row on ties). -/
def maxAttempt (l : List AssessmentAttemptRow) : Option AssessmentAttemptRow :=
  l.foldl (fun acc r =>
    match acc with
    | none => some r
    | some b => if b.attempt_number < r.attempt_number then some r else some b) none

/-- `lp.modules.prefetch_related(...)`: the path's modules. -/
def pathModules (db : DB) (pid : Nat) : List ModuleRow :=
  db.modules.filter (fun m => m.learning_path_id == pid)

/-- `Lecture.objects.filter(module__in=modules)`. -/
def pathLectures (db : DB) (pid : Nat) : List LectureRow :=
  db.lectures.filter (fun l => (pathModules db pid).any (fun m => m.module_id == l.module_id))

/-- `Assignment.objects.filter(module__in=modules)`. -/
def pathAssignments (db : DB) (pid : Nat) : List AssignmentRow :=
  db.assignments.filter (fun a => (pathModules db pid).any (fun m => m.module_id == a.module_id))

/-- `Assessment.objects.filter(learning_path=lp)`. -/
def pathAssessments (db : DB) (pid : Nat) : List AssessmentRow :=
  db.assessments.filter (fun a => a.learning_path_id == pid)

/-- The `lecture_progress_map` dict, keyed by `str(lecture_id)`. -/
def userLecMap (db : DB) (pid : Nat) (user : String) : List (String × LectureProgressRow) :=
  (db.lecture_progress.filter (fun r =>
    r.user_id == user && (pathLectures db pid).any (fun l => l.lecture_id == r.lecture_id))).map
    (fun r => (uuidStr r.lecture_id, r))

/-- The `module_progress_map` dict, keyed by `str(module_id)`. -/
def userModMap (db : DB) (pid : Nat) (user : String) : List (String × ModuleProgressRow) :=
  (db.module_progress.filter (fun r =>
    r.user_id == user && (pathModules db pid).any (fun m => m.module_id == r.module_id))).map
    (fun r => (uuidStr r.module_id, r))

/-- The `assignment_attempts_map` dict, keyed by the raw UUID
`assignment_id`. -/
def userAsgMap (db : DB) (pid : Nat) (user : String) : List (PyKey × AssignmentAttemptRow) :=
  (db.assignment_attempts.filter (fun a =>
    a.user_id == user && (pathAssignments db pid).any (fun x => x.id == a.assignment_id))).map
    (fun a => (PyKey.uuid a.assignment_id, a))

/-- The latest assessment attempt of the user for the path. -/
def userAssAttempt (db : DB) (pid : Nat) (user : String) : Option AssessmentAttemptRow :=
  maxAttempt (db.assessment_attempts.filter (fun a =>
    a.user_id == user && (pathAssessments db pid).any (fun x => x.id == a.assessment_id)))

/-- Build the per-user lookup dicts for a path: lecture progress keyed by
`str(lecture_id)`, module progress keyed by `str(module_id)`, the path
progress row, assignment attempts keyed by the raw UUID `assignment_id`,
and the latest assessment attempt. -/
def buildUserCtx (db : DB) (lp : LearningPathRow) (user : String) : UserCtx :=
  ⟨userLecMap db lp.id user, userModMap db lp.id user,
   db.learning_path_progress.find? (lppPred user lp.id),
   userAsgMap db lp.id user, userAssAttempt db lp.id user⟩

/-- `progress.is_viewed if progress else False` for a lecture key. -/
def lecViewed (ctx : UserCtx) (key : String) : Bool :=
  ((dictGet ctx.lecMap key).map (fun r => r.is_viewed)).getD false

/-- `progress.completed_at if progress else None` for a lecture key. -/
def lecCompletedAt (ctx : UserCtx) (key : String) : Option Nat :=
  (dictGet ctx.lecMap key).bind (fun r => r.completed_at)

/-- `mod_prog.progress if mod_prog else 0.0` for a module key. -/
def modProgRaw (ctx : UserCtx) (key : String) : ℚ :=
  ((dictGet ctx.modMap key).map (fun r => r.progress)).getD 0

/-- `mod_prog.is_completed if mod_prog else False` for a module key. -/
def modCompleted (ctx : UserCtx) (key : String) : Bool :=
  ((dictGet ctx.modMap key).map (fun r => r.is_completed)).getD false

/-- `attempt.status if attempt else 'not_started'`. -/
def asgStatus (att : Option AssignmentAttemptRow) : String :=
  (att.map (fun a => a.status)).getD "not_started"

/-- `attempt.score if attempt else None`. -/
def asgScore (att : Option AssignmentAttemptRow) : Option Int :=
  att.bind (fun a => a.score)

/-- `attempt.attempted_at if attempt else None`. -/
def asgAt (att : Option AssignmentAttemptRow) : Option Nat :=
  att.map (fun a => a.attempted_at)

/-- One module object as assembled on a cache miss (`views.py` 548-586). -/
def missModuleJson (db : DB) (ctx : UserCtx) (m : ModuleRow) : ModuleJson :=
  { module_id := uuidStr m.module_id,
    title := m.title,
    description := m.description,
    progress := some (modProgRaw ctx (uuidStr m.module_id)),
    is_completed := some (modCompleted ctx (uuidStr m.module_id)),
    lectures := (db.lectures.filter (fun l => l.module_id == m.module_id)).map (fun lec =>
      { lecture_id := uuidStr lec.lecture_id,
        title := lec.title,
        content := lec.content,
        video_url := lec.video_url,
        is_viewed := some (lecViewed ctx (uuidStr lec.lecture_id)),
        completed_at := some (lecCompletedAt ctx (uuidStr lec.lecture_id)) }),
    assignment := (db.assignments.find? (fun a => a.module_id == m.module_id)).map (fun a =>
      let att := dictGet ctx.asgMap (PyKey.uuid a.id)
      { id := uuidStr a.id,
        name := a.name,
        description := a.description,
        total_marks := a.total_marks,
        total_questions := a.total_questions,
        attempts := a.attempts_count,
        status := some (asgStatus att),
        score := some (asgScore att),
        attempted_at := some (asgAt att) }) }

/-- The assessment object as assembled on a cache miss (`views.py`
604-627). -/
def missAssessmentJson (ctx : UserCtx) (a : AssessmentRow) : AssessmentJson :=
  { id := a.id,
    name := a.name,
    description := a.description,
    total_marks := a.total_marks,
    total_questions := a.total_questions,
    total_duration := a.total_duration,
    total_qualifying_percentage := a.total_qualifying_percentage,
    exam_type := a.exam_type,
    password_exists := a.password_exists,
    tab_switches_allowed := a.tab_switches_allowed,
    no_of_tab_switches := a.no_of_tab_switches,
    is_fullscreen := a.is_fullscreen,
    shuffle := a.shuffle,
    voice_monitoring := a.voice_monitoring,
    face_proctoring := a.face_proctoring,
    electronic_monitoring := a.electronic_monitoring,
    attempt_number := some ((ctx.assAttempt.map (fun x => x.attempt_number)).getD 0),
    score := some (ctx.assAttempt.bind (fun x => x.score)),
    status := some ((ctx.assAttempt.map (fun x => x.status)).getD "not_attempted"),
    attempted_at := some (ctx.assAttempt.map (fun x => x.attempted_at)) }

/-- The in-memory `response` dict as assembled on a cache miss
(`views.py` 511-627), before the caching block (`views.py` 629-647) runs:
every user field is still present (`some _`). -/
def detailResponsePreCache (db : DB) (lp : LearningPathRow) (user : String) : DetailResponse :=
  { id := uuidStr lp.id,
    title := lp.title,
    level := lp.level,
    certificate_url := lp.certificate_url,
    time := lp.time,
    thumbnail := lp.thumbnail,
    is_published := lp.is_published,
    description := lp.description,
    progress := (((buildUserCtx db lp user).lpProg.map (fun r => r.progress)).getD 0),
    updated_at := (buildUserCtx db lp user).lpProg.map (fun r => r.updated_at),
    total_lectures := (pathLectures db lp.id).length,
    total_assignments := (pathAssignments db lp.id).length,
    modules := (pathModules db lp.id).map (missModuleJson db (buildUserCtx db lp user)),
    assessment := (db.assessments.find? (fun a => a.learning_path_id == lp.id)).map
      (missAssessmentJson (buildUserCtx db lp user)) }

/-- The `pop` calls stripping a lecture for the cache (`views.py` 636-638). -/
def stripLecture (l : LectureJson) : LectureCache :=
  ⟨l.lecture_id, l.title, l.content, l.video_url⟩

/-- The `pop` calls stripping an assignment for the cache (`views.py`
639-642). -/
def stripAssignment (a : AssignmentJson) : AssignmentCache :=
  ⟨a.id, a.name, a.description, a.total_marks, a.total_questions, a.attempts⟩

/-- The `pop` calls stripping a module for the cache (`views.py` 633-642). -/
def stripModule (m : ModuleJson) : ModuleCache :=
  ⟨m.module_id, m.title, m.description, m.lectures.map stripLecture,
   m.assignment.map stripAssignment⟩

/-- The `pop` calls stripping the assessment for the cache (`views.py`
643-647). -/
def stripAssessment (a : AssessmentJson) : AssessmentCache :=
  ⟨a.id, a.name, a.description, a.total_marks, a.total_questions, a.total_duration,
   a.total_qualifying_percentage, a.exam_type, a.password_exists, a.tab_switches_allowed,
   a.no_of_tab_switches, a.is_fullscreen, a.shuffle, a.voice_monitoring, a.face_proctoring,
   a.electronic_monitoring⟩

/-- The structural skeleton written to the cache on a miss (`views.py`
629-647). -/
def stripDetail (r : DetailResponse) : DetailCache :=
  ⟨r.id, r.title, r.level, r.certificate_url, r.time, r.thumbnail, r.is_published,
   r.description, r.total_lectures, r.total_assignments, r.modules.map stripModule,
   r.assessment.map stripAssessment⟩

/-- `lecture.pop('is_viewed'/'completed_at')` (`views.py` 636-638) acting
on a lecture dict of the *returned* response: the shallow
`response.copy()` (`views.py` 630) shares the nested dicts, so the `pop`s
remove these keys from the response as well. -/
def popLectureUserFields (l : LectureJson) : LectureJson :=
  { l with is_viewed := none, completed_at := none }

/-- `module['assignment'].pop(...)` (`views.py` 639-642) on the shared
assignment dict. -/
def popAssignmentUserFields (a : AssignmentJson) : AssignmentJson :=
  { a with status := none, score := none, attempted_at := none }

/-- `module.pop('progress'/'is_completed')` and the nested lecture /
assignment `pop`s (`views.py` 633-642) on a shared module dict. -/
def popModuleUserFields (m : ModuleJson) : ModuleJson :=
  { m with progress := none, is_completed := none,
           lectures := m.lectures.map popLectureUserFields,
           assignment := m.assignment.map popAssignmentUserFields }

/-- `cache_data['assessment'].pop(...)` (`views.py` 643-647) on the shared
assessment dict. -/
def popAssessmentUserFields (a : AssessmentJson) : AssessmentJson :=
  { a with attempt_number := none, score := none, status := none, attempted_at := none }

/-- Effect of the cache-stripping block (`views.py` 630-647) on the
response that is returned (`views.py` 656).  `cache_data =
response.copy()` is a shallow copy: the two top-level `pop`s of
`progress` / `updated_at` (`views.py` 631-632) hit only the copied
top-level dict, so those keys survive in the response, while every `pop`
on a nested dict mutates a dict shared with the response and removes the
key from it too. -/
def popNestedUserFields (r : DetailResponse) : DetailResponse :=
  { r with modules := r.modules.map popModuleUserFields,
           assessment := r.assessment.map popAssessmentUserFields }

/-- The response actually returned on a cache miss (`views.py` 656): the
pre-cache response with all nested user fields stripped by the shared
`pop`s, but with its top-level `progress` / `updated_at` intact. -/
def detailMissReturned (db : DB) (lp : LearningPathRow) (user : String) : DetailResponse :=
  popNestedUserFields (detailResponsePreCache db lp user)

/-- A lecture overlaid on a cache hit (`views.py` 490-493). -/
def hitLectureJson (ctx : UserCtx) (lc : LectureCache) : LectureJson :=
  { lecture_id := lc.lecture_id,
    title := lc.title,
    content := lc.content,
    video_url := lc.video_url,
    is_viewed := some (lecViewed ctx lc.lecture_id),
    completed_at := some (lecCompletedAt ctx lc.lecture_id) }

/-- An assignment overlaid on a cache hit (`views.py` 496-500).  The
attempt lookup uses the cached *string* id as key while the dict is keyed
by raw UUIDs, so it never matches. -/
def hitAssignmentJson (ctx : UserCtx) (ac : AssignmentCache) : AssignmentJson :=
  { id := ac.id,
    name := ac.name,
    description := ac.description,
    total_marks := ac.total_marks,
    total_questions := ac.total_questions,
    attempts := ac.attempts,
    status := some (asgStatus (dictGet ctx.asgMap (PyKey.str ac.id))),
    score := some (asgScore (dictGet ctx.asgMap (PyKey.str ac.id))),
    attempted_at := some (asgAt (dictGet ctx.asgMap (PyKey.str ac.id))) }

/-- A module overlaid on a cache hit (`views.py` 484-500).  Note the
deviation from the miss path: `int()` is applied to the module
progress. -/
def hitModuleJson (ctx : UserCtx) (mc : ModuleCache) : ModuleJson :=
  { module_id := mc.module_id,
    title := mc.title,
    description := mc.description,
    progress := some ((pyInt (modProgRaw ctx mc.module_id) : ℚ)),
    is_completed := some (modCompleted ctx mc.module_id),
    lectures := mc.lectures.map (hitLectureJson ctx),
    assignment := mc.assignment.map (hitAssignmentJson ctx) }

/-- The assessment overlaid on a cache hit (`views.py` 502-507). -/
def hitAssessmentJson (ctx : UserCtx) (ac : AssessmentCache) : AssessmentJson :=
  { id := ac.id,
    name := ac.name,
    description := ac.description,
    total_marks := ac.total_marks,
    total_questions := ac.total_questions,
    total_duration := ac.total_duration,
    total_qualifying_percentage := ac.total_qualifying_percentage,
    exam_type := ac.exam_type,
    password_exists := ac.password_exists,
    tab_switches_allowed := ac.tab_switches_allowed,
    no_of_tab_switches := ac.no_of_tab_switches,
    is_fullscreen := ac.is_fullscreen,
    shuffle := ac.shuffle,
    voice_monitoring := ac.voice_monitoring,
    face_proctoring := ac.face_proctoring,
    electronic_monitoring := ac.electronic_monitoring,
    attempt_number := some ((ctx.assAttempt.map (fun x => x.attempt_number)).getD 0),
    score := some (ctx.assAttempt.bind (fun x => x.score)),
    status := some ((ctx.assAttempt.map (fun x => x.status)).getD "not_attempted"),
    attempted_at := some (ctx.assAttempt.map (fun x => x.attempted_at)) }

/-- The full response assembled on a cache hit (`views.py` 479-509): the
user fields are re-read from the database (`int()`-truncating the path
and module progress) and overlaid onto the cached skeleton. -/
def hitResponse (ctx : UserCtx) (cache : DetailCache) : DetailResponse :=
  { id := cache.id,
    title := cache.title,
    level := cache.level,
    certificate_url := cache.certificate_url,
    time := cache.time,
    thumbnail := cache.thumbnail,
    is_published := cache.is_published,
    description := cache.description,
    progress := ((pyInt ((ctx.lpProg.map (fun r => r.progress)).getD 0) : ℚ)),
    updated_at := ctx.lpProg.map (fun r => r.updated_at),
    total_lectures := cache.total_lectures,
    total_assignments := cache.total_assignments,
    modules := cache.modules.map (hitModuleJson ctx),
    assessment := cache.assessment.map (hitAssessmentJson ctx) }

/-- The response produced on a cache hit (`views.py` 448-509); `none` when
the path id no longer resolves (`get_object_or_404`). -/
def detailHit (db : DB) (pid : Nat) (cache : DetailCache) (user : String) :
    Option DetailResponse :=
  (db.learning_paths.find? (fun p => p.id == pid)).map (fun lp =>
    hitResponse (buildUserCtx db lp user) cache)

/-- The whole `learning_path_detail` endpoint: given the database and the
cache entry for this path id, returns the (unchanged) database, the cache
entry after the call, and the response (`none` models the 404).  The
handler performs only `filter` / `first` / `get` queries — it never
creates or saves a row.  On a miss it caches the stripped skeleton and
returns the pre-cache response as mutated by the shared nested `pop`s. -/
def learning_path_detail (db : DB) (cache : Option DetailCache) (pid : Nat)
    (user : String) : DB × Option DetailCache × Option DetailResponse :=
  match cache with
  | some c =>
      match detailHit db pid c user with
      | some r => (db, some c, some r)
      | none => (db, some c, none)
  | none =>
      match db.learning_paths.find? (fun p => p.id == pid) with
      | none => (db, none, none)
      | some lp =>
          (db, some (stripDetail (detailResponsePreCache db lp user)),
           some (detailMissReturned db lp user))

/-! ## Listing and certificates (`views.py` `learning_paths_list`,
`certificate_list`)

Both endpoints are parameterised by the cache value stored under their
`(institution, batch)` key (`none` = cache miss); on a miss they return the
entry they write.  Pagination is applied in memory over the full
materialised list; per-user progress is looked up fresh afterwards. -/

/-- Structural (cached) shape of one path in the listing. -/
structure PathItem where
  id : String
  title : String
  level : String
  certificate_url : String
  time : String
  thumbnail : String
  is_published : Bool
  description : String
deriving DecidableEq, Repr

/-- Cache entry under `learning_paths_{institute}_{batch}`: the full
unpaginated structural list with its totals. -/
structure ListCacheEntry where
  data : List PathItem
  totalItems : Nat
  totalPages : Nat
deriving DecidableEq, Repr

/-- One path of the listing response, with the overlaid `progress`. -/
structure ListItem where
  id : String
  title : String
  level : String
  certificate_url : String
  time : String
  thumbnail : String
  is_published : Bool
  description : String
  progress : Int
deriving DecidableEq, Repr

/-- Result of the listing endpoint: an error status with its message, or
the page with its pagination envelope. -/
inductive ListResult where
  | err (status : Nat) (msg : String)
  | ok (data : List ListItem) (currentPage : Int) (totalPages totalItems itemsPerPage : Nat)
deriving DecidableEq, Repr

/-- The structural dict built for one `LearningPath` row (`views.py`
361-373). -/
def pathItemOf (lp : LearningPathRow) : PathItem :=
  ⟨uuidStr lp.id, lp.title, lp.level, lp.certificate_url, lp.time, lp.thumbnail,
   lp.is_published, lp.description⟩

/-- The progress row the `progress_map` dict yields for a stringified path
id (dict-comprehension semantics: the last matching row wins). -/
def lppLookup (db : DB) (user : String) (sid : String) : Option LearningPathProgressRow :=
  (db.learning_path_progress.filter (fun r =>
    r.user_id == user && uuidStr r.learning_path_id == sid)).getLast?

/-- `item['progress'] = int(progress_map.get(item['id'], 0.0))`
(`views.py` 421-422). -/
def listOverlay (db : DB) (user : String) (p : PathItem) : ListItem :=
  ⟨p.id, p.title, p.level, p.certificate_url, p.time, p.thumbnail, p.is_published,
   p.description, pyInt (((lppLookup db user p.id).map (fun r => r.progress)).getD 0)⟩

/-- `InstituteBatchLearningPath.objects.filter(institution=..., batch=...)`. -/
def listMappings (db : DB) (institute batch : String) : List MappingRow :=
  db.mappings.filter (fun m => m.institution == institute && m.batch == batch)

/-- `LearningPath.objects.filter(id__in=learning_path_ids)`. -/
def listPaths (db : DB) (institute batch : String) : List LearningPathRow :=
  db.learning_paths.filter (fun lp =>
    (listMappings db institute batch).any (fun m => m.learning_path_id == lp.id))

/-- The structural dicts for the whole mapped set. -/
def listItems (db : DB) (institute batch : String) : List PathItem :=
  (listPaths db institute batch).map pathItemOf

/-- The in-memory page slice (`views.py` 397-400). -/
def listPage (items : List PathItem) (currentPage : Int) : List PathItem :=
  pySlice items ((currentPage - 1) * 10) ((currentPage - 1) * 10 + 10)

/-- The listing endpoint `learning_paths_list` (`views.py` 327-436),
given the cache entry stored for `(institute, batch)`.  Returns the result
and the cache entry written (written only on a successful miss). -/
def learning_paths_list (db : DB) (cache : Option ListCacheEntry)
    (institute batch user : String) (currentPage : Int) :
    ListResult × Option ListCacheEntry :=
  match cache with
  | some entry =>
      (.ok ((listPage entry.data currentPage).map (listOverlay db user)) currentPage
        entry.totalPages entry.totalItems 10, none)
  | none =>
      if (listMappings db institute batch).isEmpty then
        (.err 404 "No learning paths found for this institute and batch", none)
      else if (listPaths db institute batch).isEmpty then
        (.err 404 "No active learning paths found", none)
      else
        (.ok ((listPage (listItems db institute batch) currentPage).map (listOverlay db user))
          currentPage (((listItems db institute batch).length + 10 - 1) / 10)
          (listItems db institute batch).length 10,
         some ⟨listItems db institute batch, (listItems db institute batch).length,
               ((listItems db institute batch).length + 10 - 1) / 10⟩)

/-- Structural (cached) shape of one path in the certificate listing. -/
structure CertItemBase where
  id : String
  title : String
  certificate_url : String
deriving DecidableEq, Repr

/-- Cache entry under `learning_paths_certificates_{institute}_{batch}`. -/
structure CertCacheEntry where
  data : List CertItemBase
  totalItems : Nat
  totalPages : Nat
deriving DecidableEq, Repr

/-- One path of the certificate response with overlaid progress fields. -/
structure CertItem where
  id : String
  title : String
  certificate_url : String
  progress : Int
  certificate_issue_date : Option Nat
deriving DecidableEq, Repr

/-- Result of the certificate endpoint. -/
inductive CertResult where
  | err (status : Nat) (msg : String)
  | ok (data : List CertItem)
deriving DecidableEq, Repr

/-- Progress overlay of the certificate endpoint (`views.py` 299-316):
`progress` is `int(p.progress)` with default `0`, the issue date is the
row's `completed_at` with default `None`. -/
def certOverlay (db : DB) (user : String) (b : CertItemBase) : CertItem :=
  match lppLookup db user b.id with
  | some r => ⟨b.id, b.title, b.certificate_url, pyInt r.progress, r.completed_at⟩
  | none => ⟨b.id, b.title, b.certificate_url, 0, none⟩

/-- The structural dicts of the certificate listing. -/
def certItems (db : DB) (institute batch : String) : List CertItemBase :=
  (listPaths db institute batch).map (fun lp =>
    CertItemBase.mk (uuidStr lp.id) lp.title lp.certificate_url)

/-- The certificate endpoint `certificate_list` (`views.py` 248-324),
given the cache entry stored for `(institute, batch)`. -/
def certificate_list (db : DB) (cache : Option CertCacheEntry)
    (institute batch user : String) : CertResult × Option CertCacheEntry :=
  match cache with
  | some entry => (.ok (entry.data.map (certOverlay db user)), none)
  | none =>
      if (listMappings db institute batch).isEmpty then
        (.err 404 "No learning paths found for this institute and batch", none)
      else if (listPaths db institute batch).isEmpty then
        (.err 404 "No active learning paths found", none)
      else
        (.ok ((certItems db institute batch).map (certOverlay db user)),
         some ⟨certItems db institute batch, (certItems db institute batch).length, 1⟩)

/-! ## Path creation (`views.py` `create_learning_path_with_modules`)

The request body is modelled at the endpoint's documented shape: string
fields are `Option String` (absent key = `none`; Python falsiness of a
string is emptiness).  All validation happens before any row is created;
every validation failure returns 400 with the database untouched. -/

/-- One element of the `modules` list of the request body. -/
structure ModuleReq where
  title : Option String
  description : Option String
deriving DecidableEq, Repr

/-- The request body of `create_learning_path_with_modules`. -/
structure CreateReq where
  title : Option String
  level : Option String
  time : Option String
  thumbnail : Option String
  description : Option String
  certificate_url : Option String
  is_published : Option Bool
  modules : Option (List ModuleReq)
deriving DecidableEq, Repr

/-- `field not in data or not data[field]`. -/
def missingOrEmpty : Option String → Bool
  | none => true
  | some s => s == ""

/-- The accepted levels (`views.py` 713). -/
def validLevels : List String := ["beginner", "intermediate", "advanced"]

/-- `str.lower()`, character by character. -/
def pyLower (s : String) : String := ⟨s.data.map Char.toLower⟩

/-- `re.compile(r'^https?://').match(s)`: the string starts with
`http://` or `https://`. -/
def urlOk (s : String) : Bool :=
  s.data.take 7 == "http://".data || s.data.take 8 == "https://".data

/-- The per-module validation loop (`views.py` 745-759): a module fails
when its title is missing or empty, or longer than 100 characters. -/
def moduleReqBad (m : ModuleReq) : Bool :=
  missingOrEmpty m.title || decide (100 < (m.title.getD "").length)

/-- The `certificate_url` check (`views.py` 727-731): present, truthy and
not matching the URL pattern. -/
def certUrlBad : Option String → Bool
  | some c => !(c == "") && !(urlOk c)
  | none => false

/-- The `LearningPath` row created on success (`views.py` 762-770). -/
def createdPath (pid : Nat) (req : CreateReq) : LearningPathRow :=
  ⟨pid, req.title.getD "", pyLower (req.level.getD ""), req.time.getD "",
   req.thumbnail.getD "", (req.is_published.getD false),
   req.description.getD "", req.certificate_url.getD ""⟩

/-- The `Module` rows created on success (`views.py` 773-784). -/
def createdModules (pid : Nat) (mid : Nat → Nat) (mods : List ModuleReq) :
    List ModuleRow :=
  mods.enum.map (fun p =>
    ModuleRow.mk (mid p.1) pid ((p.2.title).getD "") ((p.2.description).getD ""))

/-- The endpoint `create_learning_path_with_modules` (`views.py`
689-800), for a POST request.  `pid` is the fresh UUID drawn for the path
and `mid i` the fresh UUID of the i-th module.  Returns the database after
the call and the HTTP status; every early validation return is
`(db, 400)` and precedes the row creation. -/
def create_learning_path_with_modules (db : DB) (pid : Nat) (mid : Nat → Nat)
    (req : CreateReq) : DB × Nat :=
  if missingOrEmpty req.title then (db, 400)
  else if missingOrEmpty req.level then (db, 400)
  else if missingOrEmpty req.time then (db, 400)
  else if missingOrEmpty req.thumbnail then (db, 400)
  else if 100 < (req.title.getD "").length then (db, 400)
  else if pyLower (req.level.getD "") ∉ validLevels then (db, 400)
  else if ¬ (urlOk (req.thumbnail.getD "")) then (db, 400)
  else if certUrlBad req.certificate_url then (db, 400)
  else
    match req.modules with
    | none => (db, 400)
    | some mods =>
        if mods.isEmpty then (db, 400)
        else if mods.any moduleReqBad then (db, 400)
        else
          ({ db with learning_paths := db.learning_paths ++ [createdPath pid req],
                     modules := db.modules ++ createdModules pid mid mods }, 201)

/-! ## List lemmas for the upsert and counting patterns -/

theorem find?_replaceFirst (p : α → Bool) (f : α → α) (l : List α)
    (hf : ∀ a, p a = true → p (f a) = true) :
    (replaceFirst p f l).find? p = (l.find? p).map f := by
  induction l with
  | nil => simp [replaceFirst]
  | cons a as ih =>
      by_cases h : p a = true
      · simp [replaceFirst, h, List.find?_cons, hf a h]
      · simp only [Bool.not_eq_true] at h
        simp [replaceFirst, h, List.find?_cons, ih]

theorem map_replaceFirst (p : α → Bool) (f : α → α) (g : α → β) (l : List α)
    (hg : ∀ a, p a = true → g (f a) = g a) :
    (replaceFirst p f l).map g = l.map g := by
  induction l with
  | nil => simp [replaceFirst]
  | cons a as ih =>
      by_cases h : p a = true
      · simp [replaceFirst, h, hg a h]
      · simp only [Bool.not_eq_true] at h
        simp [replaceFirst, h, ih]

theorem find?_append_none (p : α → Bool) (l₁ l₂ : List α) (h : l₁.find? p = none) :
    (l₁ ++ l₂).find? p = l₂.find? p := by
  induction l₁ with
  | nil => simp
  | cons a as ih =>
      rw [List.find?_cons] at h
      by_cases ha : p a = true
      · simp [ha] at h
      · simp only [Bool.not_eq_true] at ha
        simp only [ha, Bool.false_eq_true, if_neg] at h
        simp [List.find?_cons, ha, ih h]

/-- Counting matching `LectureProgress` rows equals counting matched
lectures, as soon as progress rows are unique per `(user_id, lecture)`
and the lectures have distinct primary keys. -/
theorem viewed_count_rows_eq_lectures (rows : List LectureProgressRow)
    (ls : List LectureRow) (user : String)
    (hp : (rows.map (fun r => (r.user_id, r.lecture_id))).Nodup)
    (hl : (ls.map (fun l => l.lecture_id)).Nodup) :
    (rows.filter (fun r => r.user_id == user &&
        ls.any (fun l => l.lecture_id == r.lecture_id) && r.is_viewed)).length
      = (ls.filter (fun l => rows.any (fun r =>
          r.user_id == user && r.lecture_id == l.lecture_id && r.is_viewed))).length := by
  classical
  set P : LectureProgressRow → Bool := fun r => r.user_id == user &&
      ls.any (fun l => l.lecture_id == r.lecture_id) && r.is_viewed with hP
  set Q : LectureRow → Bool := fun l => rows.any (fun r =>
      r.user_id == user && r.lecture_id == l.lecture_id && r.is_viewed) with hQ
  have hPiff : ∀ r, P r = true ↔
      (r.user_id = user ∧ (∃ l ∈ ls, l.lecture_id = r.lecture_id) ∧ r.is_viewed = true) := by
    intro r
    rw [hP]
    simp [List.any_eq_true, and_assoc]
  have hQiff : ∀ l, Q l = true ↔
      (∃ r ∈ rows, r.user_id = user ∧ r.lecture_id = l.lecture_id ∧ r.is_viewed = true) := by
    intro l
    rw [hQ]
    simp [List.any_eq_true, and_assoc]
  -- both sides are counts of the same finite set of lecture ids
  have hA : ((rows.filter P).map (fun r => r.lecture_id)).Nodup := by
    have hsub : ((rows.filter P).map (fun r => (r.user_id, r.lecture_id))).Nodup :=
      ((List.filter_sublist rows).map _).nodup hp
    have huser : ∀ r ∈ rows.filter P, r.user_id = user := by
      intro r hr
      exact ((hPiff r).1 (List.of_mem_filter hr)).1
    have hrw : (rows.filter P).map (fun r => (r.user_id, r.lecture_id))
        = ((rows.filter P).map (fun r => r.lecture_id)).map (fun n => (user, n)) := by
      rw [List.map_map]
      exact List.map_congr_left (fun r hr => by simp [huser r hr])
    rw [hrw] at hsub
    exact hsub.of_map _
  have hB : ((ls.filter Q).map (fun l => l.lecture_id)).Nodup :=
    ((List.filter_sublist ls).map _).nodup hl
  have hmem : ∀ n : Nat, n ∈ (rows.filter P).map (fun r => r.lecture_id)
      ↔ n ∈ (ls.filter Q).map (fun l => l.lecture_id) := by
    intro n
    constructor
    · intro hn
      rcases List.mem_map.1 hn with ⟨r, hr, hrn⟩
      have hrmem := List.mem_of_mem_filter hr
      rcases (hPiff r).1 (List.of_mem_filter hr) with ⟨hu, ⟨l, hlmem, hln⟩, hview⟩
      refine List.mem_map.2 ⟨l, List.mem_filter.2 ⟨hlmem, (hQiff l).2 ?_⟩, ?_⟩
      · exact ⟨r, hrmem, hu, hln.symm, hview⟩
      · rw [hln, hrn]
    · intro hn
      rcases List.mem_map.1 hn with ⟨l, hl2, hln⟩
      have hlmem := List.mem_of_mem_filter hl2
      rcases (hQiff l).1 (List.of_mem_filter hl2) with ⟨r, hrmem, hu, hrl, hview⟩
      refine List.mem_map.2 ⟨r, List.mem_filter.2 ⟨hrmem, (hPiff r).2 ?_⟩, ?_⟩
      · exact ⟨hu, ⟨l, hlmem, hrl.symm⟩, hview⟩
      · rw [hrl, hln]
  have hlen : ((rows.filter P).map (fun r => r.lecture_id)).length
      = ((ls.filter Q).map (fun l => l.lecture_id)).length := by
    rw [← List.toFinset_card_of_nodup hA, ← List.toFinset_card_of_nodup hB]
    congr 1
    ext n
    simp only [List.mem_toFinset]
    exact hmem n
  simpa using hlen

/-! ## Characterisation of the toggle's constituent steps -/

/-- Uniqueness of `LectureProgress` rows per `(user_id, lecture)` — the
`unique_together` constraint of the model. -/
def PairsNodup (db : DB) : Prop :=
  (db.lecture_progress.map (fun r => (r.user_id, r.lecture_id))).Nodup

/-- Uniqueness of lecture primary keys. -/
def LectIdsNodup (db : DB) : Prop :=
  (db.lectures.map (fun l => l.lecture_id)).Nodup

theorem lectPred_toggleRow (old : Option LectureProgressRow) (user : String)
    (lid t : Nat) (hold : ∀ r, old = some r → lectPred user lid r = true) :
    lectPred user lid (toggleRow old user lid t) = true := by
  cases old with
  | none => simp [toggleRow, lectPred]
  | some r =>
      have := hold r rfl
      simp only [lectPred, Bool.and_eq_true, beq_iff_eq] at this ⊢
      cases hrv : r.is_viewed <;> simp [toggleRow, hrv, this.1, this.2]

theorem dbToggleLecture_snd (db : DB) (user : String) (lid t : Nat) :
    (dbToggleLecture db user lid t).2 =
      { db with lecture_progress := ((dbToggleLecture db user lid t).2).lecture_progress } := by
  unfold dbToggleLecture
  cases h : db.lecture_progress.find? (lectPred user lid) <;> simp

theorem dbToggleLecture_fst (db : DB) (user : String) (lid t : Nat) :
    (dbToggleLecture db user lid t).1 =
      toggleRow (db.lecture_progress.find? (lectPred user lid)) user lid t := by
  unfold dbToggleLecture
  cases h : db.lecture_progress.find? (lectPred user lid) <;> simp [toggleRow]

theorem dbToggleLecture_find (db : DB) (user : String) (lid t : Nat) :
    ((dbToggleLecture db user lid t).2).lecture_progress.find? (lectPred user lid)
      = some ((dbToggleLecture db user lid t).1) := by
  unfold dbToggleLecture
  cases h : db.lecture_progress.find? (lectPred user lid) with
  | none =>
      simp only
      rw [find?_append_none _ _ _ h]
      simp [List.find?_cons, lectPred]
  | some r =>
      have hr : lectPred user lid r = true := List.find?_some h
      simp only
      rw [find?_replaceFirst _ _ _ (fun a _ => lectPred_toggleRow (some r) user lid t
        (fun x hx => by cases hx; exact hr))]
      rw [h]
      rfl

theorem pairsNodup_toggle (db : DB) (user : String) (lid t : Nat)
    (hp : PairsNodup db) :
    ((dbToggleLecture db user lid t).2.lecture_progress.map
      (fun r => (r.user_id, r.lecture_id))).Nodup := by
  unfold dbToggleLecture
  cases h : db.lecture_progress.find? (lectPred user lid) with
  | none =>
      have hnotin : (user, lid) ∉ db.lecture_progress.map (fun r => (r.user_id, r.lecture_id)) := by
        intro hmem
        rcases List.mem_map.1 hmem with ⟨r, hr, hreq⟩
        have : lectPred user lid r = true := by
          simp only [lectPred, Bool.and_eq_true, beq_iff_eq]
          exact ⟨congrArg Prod.fst hreq, congrArg Prod.snd hreq⟩
        rw [List.find?_eq_none] at h
        exact absurd this (h r hr)
      simp only [List.map_append, List.map_cons, List.map_nil]
      rw [List.nodup_append]
      exact ⟨hp, List.nodup_singleton _, by
        intro a ha hb
        simp only [List.mem_singleton] at hb
        subst hb
        exact hnotin ha⟩
  | some r =>
      have hr : lectPred user lid r = true := List.find?_some h
      simp only [lectPred, Bool.and_eq_true, beq_iff_eq] at hr
      simp only
      rw [map_replaceFirst]
      · exact hp
      · intro a ha
        simp only [lectPred, Bool.and_eq_true, beq_iff_eq] at ha
        cases hrv : r.is_viewed <;>
          simp [toggleRow, hrv, ha.1, ha.2, hr.1, hr.2]

theorem upsertModuleProgress_find (db : DB) (user : String) (mid : Nat) (v : ℚ) (c : Bool) :
    ∃ row, (upsertModuleProgress db user mid v c).module_progress.find? (modPred user mid)
        = some row ∧ row.progress = v ∧ row.is_completed = c := by
  unfold upsertModuleProgress
  cases h : db.module_progress.find? (modPred user mid) with
  | none =>
      refine ⟨⟨user, mid, v, c⟩, ?_, rfl, rfl⟩
      simp only
      rw [find?_append_none _ _ _ h]
      simp [List.find?_cons, modPred]
  | some r =>
      refine ⟨{ r with progress := v, is_completed := c }, ?_, rfl, rfl⟩
      simp only
      rw [find?_replaceFirst _ _ _ (fun a ha => by
        simp only [modPred, Bool.and_eq_true, beq_iff_eq] at ha ⊢
        exact ha)]
      rw [h]
      rfl

theorem upsertModuleProgress_frame (db : DB) (user : String) (mid : Nat) (v : ℚ) (c : Bool) :
    (upsertModuleProgress db user mid v c) =
      { db with module_progress := (upsertModuleProgress db user mid v c).module_progress } := by
  unfold upsertModuleProgress
  cases h : db.module_progress.find? (modPred user mid) <;> simp

theorem save_progress (r r1 : LearningPathProgressRow) (t : Nat)
    (h : LearningPathProgressRow.save r t = some r1) : r1.progress = r.progress := by
  unfold LearningPathProgressRow.save at h
  split at h
  · cases hc : r.completed_at with
    | none => rw [hc] at h; cases h
    | some x => rw [hc] at h; cases h; rfl
  · split at h
    · cases h; rfl
    · cases h; rfl

theorem save_norm (r r1 : LearningPathProgressRow) (t : Nat)
    (h : LearningPathProgressRow.save r t = some r1) :
    (r1.progress < 100 → r1.is_completed = false ∧ r1.completed_at = none) ∧
    (r.progress ≤ 100 → r1.is_completed = true → r1.progress = 100) := by
  unfold LearningPathProgressRow.save at h
  split at h
  next hcase =>
    cases hc : r.completed_at with
    | none => rw [hc] at h; cases h
    | some x =>
        rw [hc] at h
        cases h
        exact ⟨fun hlt => absurd hcase.1 (by intro he; rw [he] at hlt; exact lt_irrefl _ hlt),
               fun _ _ => hcase.1⟩
  next hcase =>
    split at h
    next hlt =>
      cases h
      exact ⟨fun _ => ⟨rfl, rfl⟩, fun _ hcomp => by cases hcomp⟩
    next hge =>
      cases h
      push_neg at hge
      refine ⟨fun hlt => absurd hge (by simpa using hlt), fun hle _ => le_antisymm hle hge⟩

theorem save_ids (r r1 : LearningPathProgressRow) (t : Nat)
    (h : LearningPathProgressRow.save r t = some r1) :
    r1.user_id = r.user_id ∧ r1.learning_path_id = r.learning_path_id := by
  unfold LearningPathProgressRow.save at h
  split at h
  · cases hc : r.completed_at with
    | none => rw [hc] at h; cases h
    | some x => rw [hc] at h; cases h; exact ⟨rfl, rfl⟩
  · split at h <;> (cases h; exact ⟨rfl, rfl⟩)

theorem upsertLPP_some (db : DB) (user : String) (pid : Nat) (v : ℚ) (t : Nat) (db3 : DB)
    (h : upsertLPP db user pid v t = some db3) :
    ∃ r0 row, LearningPathProgressRow.save r0 t = some row ∧ r0.progress = v ∧
      db3.learning_path_progress.find? (lppPred user pid) = some row ∧
      db3 = { db with learning_path_progress := db3.learning_path_progress } := by
  unfold upsertLPP at h
  split at h
  next hfind =>
    split at h
    next hsave => cases h
    next row hsave =>
      injection h with h2
      subst h2
      refine ⟨_, row, hsave, rfl, ?_, by simp⟩
      have hids := save_ids _ _ _ hsave
      have hrow : lppPred user pid row = true := by
        simp only at hids
        simp [lppPred, hids.1, hids.2]
      simp only
      rw [find?_append_none _ _ _ hfind]
      simp [List.find?_cons, hrow]
  next r hfind =>
    split at h
    next hsave => cases h
    next row hsave =>
      injection h with h2
      subst h2
      refine ⟨_, row, hsave, rfl, ?_, by simp⟩
      have hr : lppPred user pid r = true := List.find?_some hfind
      have hids := save_ids _ _ _ hsave
      have hrow : lppPred user pid row = true := by
        simp only at hids
        simp only [lppPred, Bool.and_eq_true, beq_iff_eq] at hr ⊢
        exact ⟨hids.1.trans hr.1, hids.2.trans hr.2⟩
      simp only
      rw [find?_replaceFirst _ _ _ (fun a _ => hrow)]
      rw [hfind]
      rfl

/-- Inversion of a successful toggle: the three lookups succeeded, the
final upsert succeeded, and the response is assembled from the computed
values. -/
theorem update_ok_inv {db : DB} {user : String} {lid t : Nat} {db3 : DB}
    {resp : ToggleResponse}
    (h : update_learning_path_progress db user lid t = .ok db3 resp) :
    ∃ lecture module lp,
      db.lectures.find? (fun l => l.lecture_id == lid) = some lecture ∧
      db.modules.find? (fun m => m.module_id == lecture.module_id) = some module ∧
      db.learning_paths.find? (fun p => p.id == module.learning_path_id) = some lp ∧
      upsertLPP (dbAfterModule db user lid t module.module_id) user lp.id
        (pathMean (dbAfterModule db user lid t module.module_id) user lp.id) t
        = some db3 ∧
      resp = ⟨(dbToggleLecture db user lid t).1.is_viewed,
              (dbToggleLecture db user lid t).1.completed_at,
              pyInt (moduleValue (dbToggleLecture db user lid t).2 user module.module_id),
              decide (moduleValue (dbToggleLecture db user lid t).2 user module.module_id = 100),
              pyInt (pathMean (dbAfterModule db user lid t module.module_id) user lp.id)⟩ := by
  unfold update_learning_path_progress at h
  split at h
  next => cases h
  next lecture hlec =>
    split at h
    next => cases h
    next module hmod =>
      split at h
      next => cases h
      next lp hlp =>
        split at h
        next => cases h
        next dbz hupsert =>
          injection h with h1 h2
          subst h1
          subst h2
          exact ⟨lecture, module, lp, hlec, hmod, hlp, hupsert, rfl⟩

/-! ## Frame facts and bounds for the toggle stages -/

theorem upsertModuleProgress_core (db : DB) (user : String) (mid : Nat) (v : ℚ) (c : Bool) :
    (upsertModuleProgress db user mid v c).learning_paths = db.learning_paths ∧
    (upsertModuleProgress db user mid v c).modules = db.modules ∧
    (upsertModuleProgress db user mid v c).lectures = db.lectures ∧
    (upsertModuleProgress db user mid v c).lecture_progress = db.lecture_progress ∧
    (upsertModuleProgress db user mid v c).learning_path_progress
      = db.learning_path_progress := by
  unfold upsertModuleProgress
  split <;> exact ⟨rfl, rfl, rfl, rfl, rfl⟩

theorem dbToggleLecture_core (db : DB) (user : String) (lid t : Nat) :
    (dbToggleLecture db user lid t).2.learning_paths = db.learning_paths ∧
    (dbToggleLecture db user lid t).2.modules = db.modules ∧
    (dbToggleLecture db user lid t).2.lectures = db.lectures ∧
    (dbToggleLecture db user lid t).2.module_progress = db.module_progress ∧
    (dbToggleLecture db user lid t).2.learning_path_progress
      = db.learning_path_progress := by
  unfold dbToggleLecture
  split <;> exact ⟨rfl, rfl, rfl, rfl, rfl⟩

theorem dbAfterModule_core (db : DB) (user : String) (lid t mid : Nat) :
    (dbAfterModule db user lid t mid).learning_paths = db.learning_paths ∧
    (dbAfterModule db user lid t mid).modules = db.modules ∧
    (dbAfterModule db user lid t mid).lectures = db.lectures ∧
    (dbAfterModule db user lid t mid).lecture_progress
      = (dbToggleLecture db user lid t).2.lecture_progress := by
  obtain ⟨hu1, hu2, hu3, hu4, _⟩ := upsertModuleProgress_core (dbToggleLecture db user lid t).2
    user mid (moduleValue (dbToggleLecture db user lid t).2 user mid)
    (decide (moduleValue (dbToggleLecture db user lid t).2 user mid = 100))
  obtain ⟨ht1, ht2, ht3, _, _⟩ := dbToggleLecture_core db user lid t
  unfold dbAfterModule
  split
  · exact ⟨hu1.trans ht1, hu2.trans ht2, hu3.trans ht3, hu4⟩
  · exact ⟨ht1, ht2, ht3, rfl⟩

theorem lecture_filter_pos (db : DB) {lid : Nat} {lecture : LectureRow}
    (h : db.lectures.find? (fun l => l.lecture_id == lid) = some lecture) :
    0 < (db.lectures.filter (fun l => l.module_id == lecture.module_id)).length := by
  have hmem : lecture ∈ db.lectures := List.mem_of_find?_eq_some h
  have hmf : lecture ∈ db.lectures.filter (fun l => l.module_id == lecture.module_id) :=
    List.mem_filter.2 ⟨hmem, by simp⟩
  exact List.length_pos_of_mem hmf

theorem dbAfterModule_find (db : DB) (user : String) (lid t mid : Nat)
    (hpos : 0 < ((dbToggleLecture db user lid t).2.lectures.filter
      (fun l => l.module_id == mid)).length) :
    ∃ row, (dbAfterModule db user lid t mid).module_progress.find? (modPred user mid)
        = some row ∧
      row.progress = moduleValue (dbToggleLecture db user lid t).2 user mid ∧
      row.is_completed
        = decide (moduleValue (dbToggleLecture db user lid t).2 user mid = 100) := by
  unfold dbAfterModule
  rw [if_pos hpos]
  exact upsertModuleProgress_find _ _ _ _ _

/-! ## The spec's formulation of the percentages -/

/-- The number of the module's lectures the user has viewed — the claim's
reading of the viewed count, counting lectures rather than progress rows. -/
def viewedLectureCount (db : DB) (user : String) (mid : Nat) : Nat :=
  ((db.lectures.filter (fun l => l.module_id == mid)).filter (fun l =>
    db.lecture_progress.any (fun r =>
      r.user_id == user && r.lecture_id == l.lecture_id && r.is_viewed))).length

/-- The spec's module percentage: `100 × viewed / total`, `0` for a module
with no lectures. -/
def specModuleValue (db : DB) (user : String) (mid : Nat) : ℚ :=
  if (db.lectures.filter (fun l => l.module_id == mid)).length = 0 then 0
  else 100 * (viewedLectureCount db user mid : ℚ)
    / ((db.lectures.filter (fun l => l.module_id == mid)).length : ℚ)

theorem moduleValue_eq_spec (db : DB) (user : String) (mid : Nat)
    (hp : PairsNodup db) (hl : LectIdsNodup db) :
    moduleValue db user mid = specModuleValue db user mid := by
  have hlnod : ((db.lectures.filter (fun l => l.module_id == mid)).map
      (fun l => l.lecture_id)).Nodup :=
    ((List.filter_sublist db.lectures).map _).nodup hl
  have hcnt : viewedRowCount db user (db.lectures.filter (fun l => l.module_id == mid))
      = viewedLectureCount db user mid := by
    unfold viewedRowCount viewedLectureCount
    exact viewed_count_rows_eq_lectures _ _ _ hp hlnod
  unfold moduleValue specModuleValue
  rcases Nat.eq_zero_or_pos (db.lectures.filter (fun l => l.module_id == mid)).length
    with h0 | hpos
  · simp [h0]
  · rw [if_pos hpos, if_neg (by omega), hcnt]
    ring

theorem moduleValue_le_100 (db : DB) (user : String) (mid : Nat)
    (hp : PairsNodup db) (hl : LectIdsNodup db) :
    moduleValue db user mid ≤ 100 := by
  rw [moduleValue_eq_spec db user mid hp hl]
  unfold specModuleValue
  split
  next => norm_num
  next h0 =>
    have hpos : 0 < (db.lectures.filter (fun l => l.module_id == mid)).length :=
      Nat.pos_of_ne_zero h0
    have hb : (0:ℚ) < ((db.lectures.filter (fun l => l.module_id == mid)).length : ℚ) := by
      exact_mod_cast hpos
    have hcnt : (viewedLectureCount db user mid : ℚ)
        ≤ ((db.lectures.filter (fun l => l.module_id == mid)).length : ℚ) := by
      exact_mod_cast List.length_filter_le _ _
    rw [div_le_iff hb]
    nlinarith

theorem pathMean_le_100 (db : DB) (user : String) (pid : Nat)
    (hp : PairsNodup db) (hl : LectIdsNodup db) :
    pathMean db user pid ≤ 100 := by
  unfold pathMean
  split
  next hpos =>
    have hb : (0:ℚ) < ((db.modules.filter
        (fun m => m.learning_path_id == pid)).length : ℚ) := by exact_mod_cast hpos
    have hsum : ((db.modules.filter (fun m => m.learning_path_id == pid)).map
        (fun m => moduleValue db user m.module_id)).sum
        ≤ ((db.modules.filter (fun m => m.learning_path_id == pid)).length : ℚ) * 100 := by
      have hb2 := List.sum_le_card_nsmul
        ((db.modules.filter (fun m => m.learning_path_id == pid)).map
          (fun m => moduleValue db user m.module_id)) 100
        (by
          intro x hx
          rcases List.mem_map.1 hx with ⟨m, hm, rfl⟩
          exact moduleValue_le_100 db user m.module_id hp hl)
      simpa [nsmul_eq_mul] using hb2
    rw [div_le_iff hb]
    linarith [hsum]
  next => norm_num

theorem moduleValue_congr {db db2 : DB} (h1 : db.lectures = db2.lectures)
    (h2 : db.lecture_progress = db2.lecture_progress) (user : String) (mid : Nat) :
    moduleValue db user mid = moduleValue db2 user mid := by
  unfold moduleValue viewedRowCount
  rw [h1, h2]

theorem specModuleValue_congr {db db2 : DB} (h1 : db.lectures = db2.lectures)
    (h2 : db.lecture_progress = db2.lecture_progress) (user : String) (mid : Nat) :
    specModuleValue db user mid = specModuleValue db2 user mid := by
  unfold specModuleValue viewedLectureCount
  rw [h1, h2]

theorem pathMean_congr {db db2 : DB} (h0 : db.modules = db2.modules)
    (h1 : db.lectures = db2.lectures) (h2 : db.lecture_progress = db2.lecture_progress)
    (user : String) (pid : Nat) :
    pathMean db user pid = pathMean db2 user pid := by
  unfold pathMean
  rw [h0]
  simp only [moduleValue_congr h1 h2]

/-! ## Claim C1 -/

/-- C1: after a lecture-progress toggle for `(user, lecture)`, the
`ModuleProgress` row upserted for the owning module has
`progress = 100 × viewed / total` over that module's lectures (the
zero-lecture case yields `0`, which in exact arithmetic the same formula
gives), and `is_completed` holds exactly when that value is `100`. -/
theorem c1_module_progress_after_toggle
    (db : DB) (user : String) (lid t : Nat) (db3 : DB) (resp : ToggleResponse)
    (hp : PairsNodup db) (hl : LectIdsNodup db)
    (h : update_learning_path_progress db user lid t = .ok db3 resp) :
    ∃ lecture, db.lectures.find? (fun l => l.lecture_id == lid) = some lecture ∧
    ∃ row, db3.module_progress.find? (modPred user lecture.module_id) = some row ∧
      row.progress = 100 * (viewedLectureCount db3 user lecture.module_id : ℚ)
          / ((db3.lectures.filter (fun l => l.module_id == lecture.module_id)).length : ℚ) ∧
      (row.is_completed = true ↔ row.progress = 100) := by
  obtain ⟨lecture, module, lp, hlec, hmod, hlp, hupsert, hresp⟩ := update_ok_inv h
  obtain ⟨ht1, ht2, ht3, ht4, ht5⟩ := dbToggleLecture_core db user lid t
  obtain ⟨ha1, ha2, ha3, ha4⟩ := dbAfterModule_core db user lid t module.module_id
  obtain ⟨r0, rowL, hsave, hr0, hfindL, hframe⟩ := upsertLPP_some _ _ _ _ _ _ hupsert
  have hdb3_mod : db3.module_progress
      = (dbAfterModule db user lid t module.module_id).module_progress := by
    rw [hframe]
  have hdb3_lect : db3.lectures = db.lectures := by rw [hframe]; exact ha3
  have hdb3_lprog : db3.lecture_progress
      = (dbToggleLecture db user lid t).2.lecture_progress := by
    rw [hframe]; exact ha4
  have hmid : module.module_id = lecture.module_id := by
    have := List.find?_some hmod
    simpa [beq_iff_eq] using this
  have hpos : 0 < ((dbToggleLecture db user lid t).2.lectures.filter
      (fun l => l.module_id == module.module_id)).length := by
    rw [ht3, hmid]
    exact lecture_filter_pos db hlec
  obtain ⟨row, hfindM, hprog, hcomp⟩ := dbAfterModule_find db user lid t module.module_id hpos
  refine ⟨lecture, hlec, row, ?_, ?_, ?_⟩
  · rw [hdb3_mod, ← hmid]
    exact hfindM
  · rw [hprog]
    have hp1 : PairsNodup (dbToggleLecture db user lid t).2 := pairsNodup_toggle db user lid t hp
    have hl1 : LectIdsNodup (dbToggleLecture db user lid t).2 := by
      unfold LectIdsNodup
      rw [ht3]
      exact hl
    rw [moduleValue_eq_spec _ _ _ hp1 hl1]
    have hcong : specModuleValue (dbToggleLecture db user lid t).2 user module.module_id
        = specModuleValue db3 user module.module_id :=
      specModuleValue_congr (by rw [ht3, hdb3_lect]) (by rw [hdb3_lprog]) user module.module_id
    rw [hcong, hmid]
    have hne : ¬ (db3.lectures.filter (fun l => l.module_id == lecture.module_id)).length = 0 := by
      have hpos3 : 0 < (db3.lectures.filter (fun l => l.module_id == lecture.module_id)).length := by
        rw [hdb3_lect]
        exact lecture_filter_pos db hlec
      omega
    unfold specModuleValue
    rw [if_neg hne]
  · rw [hcomp, hprog]
    simp [decide_eq_true_iff]

/-- Concrete database for the toggle witnesses: one path, one module,
three lectures, the second already viewed. -/
def dbW : DB := { emptyDB with
  learning_paths := [⟨1, "P", "beginner", "1h", "https://x", true, "", ""⟩],
  modules := [⟨1, 1, "M", ""⟩],
  lectures := [⟨1, 1, "L1", "", none⟩, ⟨2, 1, "L2", "", none⟩, ⟨3, 1, "L3", "", none⟩],
  lecture_progress := [⟨"u", 2, true, some 1⟩] }

/-- The database after toggling lecture 1 of `dbW` at time 7. -/
def dbW3 : DB := { dbW with
  lecture_progress := [⟨"u", 2, true, some 1⟩, ⟨"u", 1, true, some 7⟩],
  module_progress := [⟨"u", 1, 200/3, false⟩],
  learning_path_progress := [⟨"u", 1, 200/3, 7, 7, false, none⟩] }

/-- The response of that toggle. -/
def respW : ToggleResponse := ⟨true, some 7, 66, false, 66⟩

/-- C1 witness at the concrete toggle on `dbW`. -/
theorem c1_witness :
    ∃ lecture, dbW.lectures.find? (fun l => l.lecture_id == 1) = some lecture ∧
    ∃ row, dbW3.module_progress.find? (modPred "u" lecture.module_id) = some row ∧
      row.progress = 100 * (viewedLectureCount dbW3 "u" lecture.module_id : ℚ)
          / ((dbW3.lectures.filter (fun l => l.module_id == lecture.module_id)).length : ℚ) ∧
      (row.is_completed = true ↔ row.progress = 100) :=
  c1_module_progress_after_toggle dbW "u" 1 7 dbW3 respW
    (by unfold PairsNodup; decide) (by unfold LectIdsNodup; decide) (by decide)

/-! ## Claim C2 -/

/-- C2: after a lecture-progress toggle, the `LearningPathProgress` row
upserted for the owning path has `progress` equal to the unweighted mean
over all of that path's modules of each module's freshly recomputed
viewed-fraction percentage (a module with no lectures contributing `0`),
and `0` when the path has no modules. -/
theorem c2_path_progress_after_toggle
    (db : DB) (user : String) (lid t : Nat) (db3 : DB) (resp : ToggleResponse)
    (hp : PairsNodup db) (hl : LectIdsNodup db)
    (h : update_learning_path_progress db user lid t = .ok db3 resp) :
    ∃ lecture module,
      db.lectures.find? (fun l => l.lecture_id == lid) = some lecture ∧
      db.modules.find? (fun m => m.module_id == lecture.module_id) = some module ∧
    ∃ row, db3.learning_path_progress.find? (lppPred user module.learning_path_id)
        = some row ∧
      row.progress =
        (if (db3.modules.filter (fun m => m.learning_path_id == module.learning_path_id))
            = [] then 0
         else ((db3.modules.filter
              (fun m => m.learning_path_id == module.learning_path_id)).map
            (fun m => specModuleValue db3 user m.module_id)).sum
           / ((db3.modules.filter
              (fun m => m.learning_path_id == module.learning_path_id)).length : ℚ)) := by
  obtain ⟨lecture, module, lp, hlec, hmod, hlp, hupsert, hresp⟩ := update_ok_inv h
  obtain ⟨ht1, ht2, ht3, ht4, ht5⟩ := dbToggleLecture_core db user lid t
  obtain ⟨ha1, ha2, ha3, ha4⟩ := dbAfterModule_core db user lid t module.module_id
  obtain ⟨r0, row, hsave, hr0, hfindL, hframe⟩ := upsertLPP_some _ _ _ _ _ _ hupsert
  have hlpid : lp.id = module.learning_path_id := by
    have := List.find?_some hlp
    simpa [beq_iff_eq] using this
  have hdb3_modules : db3.modules = db.modules := by rw [hframe]; exact ha2
  have hdb3_lect : db3.lectures = db.lectures := by rw [hframe]; exact ha3
  have hdb3_lprog : db3.lecture_progress
      = (dbToggleLecture db user lid t).2.lecture_progress := by
    rw [hframe]; exact ha4
  have hp2 : PairsNodup (dbAfterModule db user lid t module.module_id) := by
    unfold PairsNodup
    rw [ha4]
    exact pairsNodup_toggle db user lid t hp
  have hl2 : LectIdsNodup (dbAfterModule db user lid t module.module_id) := by
    unfold LectIdsNodup
    rw [ha3]
    exact hl
  refine ⟨lecture, module, hlec, hmod, row, ?_, ?_⟩
  · rw [← hlpid]
    exact hfindL
  · have hprog : row.progress
        = pathMean (dbAfterModule db user lid t module.module_id) user lp.id := by
      rw [save_progress _ _ _ hsave, hr0]
    rw [hprog]
    have hcongM : ∀ mid : Nat,
        moduleValue (dbAfterModule db user lid t module.module_id) user mid
          = specModuleValue db3 user mid := by
      intro mid
      rw [moduleValue_eq_spec _ _ _ hp2 hl2]
      exact specModuleValue_congr (by rw [ha3, hdb3_lect]) (by rw [ha4, hdb3_lprog]) user mid
    have hmods : (dbAfterModule db user lid t module.module_id).modules = db3.modules := by
      rw [ha2, hdb3_modules]
    unfold pathMean
    rw [hmods, hlpid]
    split
    next hpos =>
      rw [if_neg (by
        intro hnil
        rw [hnil] at hpos
        simp at hpos)]
      congr 1
      exact congrArg List.sum
        (List.map_congr_left (fun (m : ModuleRow) _ => hcongM m.module_id))
    next hpos =>
      rw [if_pos (List.length_eq_zero.1 (by omega))]

/-- C2 witness at the concrete toggle on `dbW`. -/
theorem c2_witness :
    ∃ lecture module,
      dbW.lectures.find? (fun l => l.lecture_id == 1) = some lecture ∧
      dbW.modules.find? (fun m => m.module_id == lecture.module_id) = some module ∧
    ∃ row, dbW3.learning_path_progress.find? (lppPred "u" module.learning_path_id)
        = some row ∧
      row.progress =
        (if (dbW3.modules.filter (fun m => m.learning_path_id == module.learning_path_id))
            = [] then 0
         else ((dbW3.modules.filter
              (fun m => m.learning_path_id == module.learning_path_id)).map
            (fun m => specModuleValue dbW3 "u" m.module_id)).sum
           / ((dbW3.modules.filter
              (fun m => m.learning_path_id == module.learning_path_id)).length : ℚ)) :=
  c2_path_progress_after_toggle dbW "u" 1 7 dbW3 respW
    (by unfold PairsNodup; decide) (by unfold LectIdsNodup; decide) (by decide)

/-! ## Claim C3 -/

theorem update_lectureRow {db : DB} {user : String} {lid t : Nat} {db3 : DB}
    {resp : ToggleResponse}
    (h : update_learning_path_progress db user lid t = .ok db3 resp) :
    db3.lecture_progress.find? (lectPred user lid)
      = some (toggleRow (db.lecture_progress.find? (lectPred user lid)) user lid t) := by
  obtain ⟨lecture, module, lp, hlec, hmod, hlp, hupsert, hresp⟩ := update_ok_inv h
  obtain ⟨ha1, ha2, ha3, ha4⟩ := dbAfterModule_core db user lid t module.module_id
  obtain ⟨r0, row, hsave, hr0, hfindL, hframe⟩ := upsertLPP_some _ _ _ _ _ _ hupsert
  have hdb3 : db3.lecture_progress = (dbToggleLecture db user lid t).2.lecture_progress := by
    rw [hframe]
    exact ha4
  rw [hdb3, dbToggleLecture_find, dbToggleLecture_fst]

/-- Concrete database for the double-toggle counterexample: lecture 1 is
already viewed by the user. -/
def dbC3 : DB := { emptyDB with
  learning_paths := [⟨1, "P", "beginner", "1h", "https://x", true, "", ""⟩],
  modules := [⟨1, 1, "M", ""⟩],
  lectures := [⟨1, 1, "L1", "", none⟩, ⟨2, 1, "L2", "", none⟩],
  lecture_progress := [⟨"u", 1, true, some 0⟩] }

/-- C3 counterexample: starting from a row with `is_viewed = true`, two
successive successful toggles (at times 5 and 9) leave
`completed_at = some 9`, not null — the second toggle stamps the current
time, so the claim's "leaves completed_at null" fails for rows that were
originally viewed. -/
theorem c3_counterexample :
    dbC3.lecture_progress.find? (lectPred "u" 1) = some ⟨"u", 1, true, some 0⟩ ∧
    ((update_learning_path_progress dbC3 "u" 1 5).okDb.bind (fun db1 =>
      ((update_learning_path_progress db1 "u" 1 9).okDb.map (fun db2 =>
        db2.lecture_progress.find? (lectPred "u" 1)))))
      = some (some ⟨"u", 1, true, some 9⟩) ∧
    (some 9 : Option Nat) ≠ none := by decide

/-- C3 amended: two successive successful toggles restore `is_viewed` to
its original value (`false` for an absent row); `completed_at` ends null
exactly when the original state was un-viewed or absent, and ends at the
second toggle's timestamp when the original state was viewed. -/
theorem c3_amended_double_toggle
    (db : DB) (user : String) (lid t1 t2 : Nat) (db1 db2 : DB) (r1 r2 : ToggleResponse)
    (h1 : update_learning_path_progress db user lid t1 = .ok db1 r1)
    (h2 : update_learning_path_progress db1 user lid t2 = .ok db2 r2) :
    ∃ row, db2.lecture_progress.find? (lectPred user lid) = some row ∧
      row.is_viewed = ((db.lecture_progress.find? (lectPred user lid)).map
          (fun r => r.is_viewed)).getD false ∧
      row.completed_at =
        (if ((db.lecture_progress.find? (lectPred user lid)).map
            (fun r => r.is_viewed)).getD false then some t2 else none) := by
  have e1 := update_lectureRow h1
  have e2 := update_lectureRow h2
  rw [e1] at e2
  refine ⟨_, e2, ?_, ?_⟩ <;>
  · cases hfind : db.lecture_progress.find? (lectPred user lid) with
    | none => simp [toggleRow]
    | some r => cases hrv : r.is_viewed <;> simp [toggleRow, hrv]

/-- The database after the first toggle of the amended-C3 witness run. -/
def dbC3a : DB := { dbC3 with
  lecture_progress := [⟨"u", 1, false, none⟩],
  module_progress := [⟨"u", 1, 0, false⟩],
  learning_path_progress := [⟨"u", 1, 0, 5, 5, false, none⟩] }

/-- The database after the second toggle of the amended-C3 witness run. -/
def dbC3b : DB := { dbC3 with
  lecture_progress := [⟨"u", 1, true, some 9⟩],
  module_progress := [⟨"u", 1, 50, false⟩],
  learning_path_progress := [⟨"u", 1, 50, 5, 9, false, none⟩] }

/-- C3 amended witness at the concrete double toggle on `dbC3`. -/
theorem c3_amended_witness :
    ∃ row, dbC3b.lecture_progress.find? (lectPred "u" 1) = some row ∧
      row.is_viewed = ((dbC3.lecture_progress.find? (lectPred "u" 1)).map
          (fun r => r.is_viewed)).getD false ∧
      row.completed_at =
        (if ((dbC3.lecture_progress.find? (lectPred "u" 1)).map
            (fun r => r.is_viewed)).getD false then some 9 else none) :=
  c3_amended_double_toggle dbC3 "u" 1 5 9 dbC3a dbC3b ⟨false, none, 0, false, 0⟩
    ⟨true, some 9, 50, false, 50⟩ (by decide) (by decide)

/-! ## Claim C8 -/

/-- C8: the toggled lecture belongs to the module whose progress is
recomputed, so that module's lecture count is at least 1 — the
zero-lecture branch cannot fire for the owning module — and every
successful toggle leaves an upserted `ModuleProgress` row for
`(user, module)`. -/
theorem c8_owning_module_division_safe
    (db : DB) (user : String) (lid t : Nat) (lecture : LectureRow)
    (hlec : db.lectures.find? (fun l => l.lecture_id == lid) = some lecture) :
    0 < (db.lectures.filter (fun l => l.module_id == lecture.module_id)).length ∧
    ∀ db3 resp, update_learning_path_progress db user lid t = .ok db3 resp →
      (db3.module_progress.find? (modPred user lecture.module_id)).isSome = true := by
  refine ⟨lecture_filter_pos db hlec, ?_⟩
  intro db3 resp h
  obtain ⟨lecture2, module, lp, hlec2, hmod, hlp, hupsert, hresp⟩ := update_ok_inv h
  rw [hlec] at hlec2
  have heq : lecture = lecture2 := Option.some.inj hlec2
  subst heq
  obtain ⟨ht1, ht2, ht3, ht4, ht5⟩ := dbToggleLecture_core db user lid t
  obtain ⟨r0, row, hsave, hr0, hfindL, hframe⟩ := upsertLPP_some _ _ _ _ _ _ hupsert
  have hmid : module.module_id = lecture.module_id := by
    have := List.find?_some hmod
    simpa [beq_iff_eq] using this
  have hpos : 0 < ((dbToggleLecture db user lid t).2.lectures.filter
      (fun l => l.module_id == module.module_id)).length := by
    rw [ht3, hmid]
    exact lecture_filter_pos db hlec
  obtain ⟨mrow, hfindM, _, _⟩ := dbAfterModule_find db user lid t module.module_id hpos
  have hdb3_mod : db3.module_progress
      = (dbAfterModule db user lid t module.module_id).module_progress := by
    rw [hframe]
  rw [hdb3_mod, ← hmid, hfindM]
  rfl

/-- C8 witness at the concrete toggle on `dbW`. -/
theorem c8_witness :
    0 < (dbW.lectures.filter (fun l =>
        l.module_id == (⟨1, 1, "L1", "", none⟩ : LectureRow).module_id)).length ∧
    ∀ db3 resp, update_learning_path_progress dbW "u" 1 7 = .ok db3 resp →
      (db3.module_progress.find? (modPred "u"
        (⟨1, 1, "L1", "", none⟩ : LectureRow).module_id)).isSome = true :=
  c8_owning_module_division_safe dbW "u" 1 7 ⟨1, 1, "L1", "", none⟩ (by decide)

/-! ## Claim C9 -/

/-- C9: a successful toggle — the only operation of the app that writes a
`LearningPathProgress` row — leaves that row normalized by the custom
`save`: `progress < 100` forces `is_completed = false` and a null
`completed_at`, and `is_completed` can hold only at `progress = 100`. -/
theorem c9_lpp_normalized
    (db : DB) (user : String) (lid t : Nat) (db3 : DB) (resp : ToggleResponse)
    (hp : PairsNodup db) (hl : LectIdsNodup db)
    (h : update_learning_path_progress db user lid t = .ok db3 resp) :
    ∃ lecture module,
      db.lectures.find? (fun l => l.lecture_id == lid) = some lecture ∧
      db.modules.find? (fun m => m.module_id == lecture.module_id) = some module ∧
    ∃ row, db3.learning_path_progress.find? (lppPred user module.learning_path_id)
        = some row ∧
      (row.progress < 100 → row.is_completed = false ∧ row.completed_at = none) ∧
      (row.is_completed = true → row.progress = 100) := by
  obtain ⟨lecture, module, lp, hlec, hmod, hlp, hupsert, hresp⟩ := update_ok_inv h
  obtain ⟨ha1, ha2, ha3, ha4⟩ := dbAfterModule_core db user lid t module.module_id
  obtain ⟨r0, row, hsave, hr0, hfindL, hframe⟩ := upsertLPP_some _ _ _ _ _ _ hupsert
  have hlpid : lp.id = module.learning_path_id := by
    have := List.find?_some hlp
    simpa [beq_iff_eq] using this
  have hp2 : PairsNodup (dbAfterModule db user lid t module.module_id) := by
    unfold PairsNodup
    rw [ha4]
    exact pairsNodup_toggle db user lid t hp
  have hl2 : LectIdsNodup (dbAfterModule db user lid t module.module_id) := by
    unfold LectIdsNodup
    rw [ha3]
    exact hl
  have hb : r0.progress ≤ 100 := by
    rw [hr0]
    exact pathMean_le_100 _ _ _ hp2 hl2
  obtain ⟨hn1, hn2⟩ := save_norm _ _ _ hsave
  exact ⟨lecture, module, hlec, hmod, row, by rw [← hlpid]; exact hfindL, hn1, hn2 hb⟩

/-- C9 witness at the concrete toggle on `dbW`. -/
theorem c9_witness :
    ∃ lecture module,
      dbW.lectures.find? (fun l => l.lecture_id == 1) = some lecture ∧
      dbW.modules.find? (fun m => m.module_id == lecture.module_id) = some module ∧
    ∃ row, dbW3.learning_path_progress.find? (lppPred "u" module.learning_path_id)
        = some row ∧
      (row.progress < 100 → row.is_completed = false ∧ row.completed_at = none) ∧
      (row.is_completed = true → row.progress = 100) :=
  c9_lpp_normalized dbW "u" 1 7 dbW3 respW
    (by unfold PairsNodup; decide) (by unfold LectIdsNodup; decide) (by decide)

/-! ## Claim C10 -/

/-- C10: progress values in responses are truncated to integers — the
toggle response reports module and path progress as `int(value)` of the
stored floats, and the listing and certificate endpoints report each
path's progress as `int(stored float)` with default `0` when the user has
no `LearningPathProgress` row. -/
theorem c10_progress_int_truncation
    (db : DB) (user : String) (lid t : Nat) (db3 : DB) (resp : ToggleResponse)
    (dbL : DB) (cacheL : Option ListCacheEntry) (instL batchL userL : String) (pageL : Int)
    (dbC : DB) (cacheC : Option CertCacheEntry) (instC batchC userC : String) :
    (update_learning_path_progress db user lid t = .ok db3 resp →
      ∃ lecture module,
        db.lectures.find? (fun l => l.lecture_id == lid) = some lecture ∧
        db.modules.find? (fun m => m.module_id == lecture.module_id) = some module ∧
        ∃ mrow prow,
          db3.module_progress.find? (modPred user lecture.module_id) = some mrow ∧
          resp.module_progress = pyInt mrow.progress ∧
          db3.learning_path_progress.find? (lppPred user module.learning_path_id)
            = some prow ∧
          resp.path_progress = pyInt prow.progress) ∧
    (∀ data cp tp ti ipp,
      (learning_paths_list dbL cacheL instL batchL userL pageL).1 = .ok data cp tp ti ipp →
      ∀ it ∈ data, it.progress
        = pyInt (((lppLookup dbL userL it.id).map (fun r => r.progress)).getD 0)) ∧
    (∀ cdata, (certificate_list dbC cacheC instC batchC userC).1 = .ok cdata →
      ∀ it ∈ cdata, it.progress
        = pyInt (((lppLookup dbC userC it.id).map (fun r => r.progress)).getD 0)) := by
  refine ⟨?_, ?_, ?_⟩
  · intro h
    obtain ⟨lecture, module, lp, hlec, hmod, hlp, hupsert, hresp⟩ := update_ok_inv h
    obtain ⟨ht1, ht2, ht3, ht4, ht5⟩ := dbToggleLecture_core db user lid t
    obtain ⟨r0, prow, hsave, hr0, hfindL, hframe⟩ := upsertLPP_some _ _ _ _ _ _ hupsert
    have hmid : module.module_id = lecture.module_id := by
      have := List.find?_some hmod
      simpa [beq_iff_eq] using this
    have hlpid : lp.id = module.learning_path_id := by
      have := List.find?_some hlp
      simpa [beq_iff_eq] using this
    have hpos : 0 < ((dbToggleLecture db user lid t).2.lectures.filter
        (fun l => l.module_id == module.module_id)).length := by
      rw [ht3, hmid]
      exact lecture_filter_pos db hlec
    obtain ⟨mrow, hfindM, hprog, hcomp⟩ := dbAfterModule_find db user lid t module.module_id hpos
    have hdb3_mod : db3.module_progress
        = (dbAfterModule db user lid t module.module_id).module_progress := by
      rw [hframe]
    refine ⟨lecture, module, hlec, hmod, mrow, prow, ?_, ?_, ?_, ?_⟩
    · rw [hdb3_mod, ← hmid]
      exact hfindM
    · rw [hresp, hprog]
    · rw [← hlpid]
      exact hfindL
    · rw [hresp, save_progress _ _ _ hsave, hr0]
  · intro data cp tp ti ipp hok it hit
    have hmem : ∀ ps : List PathItem, data = ps.map (listOverlay dbL userL) →
        it.progress
          = pyInt (((lppLookup dbL userL it.id).map (fun r => r.progress)).getD 0) := by
      intro ps hdata
      subst hdata
      rcases List.mem_map.1 hit with ⟨p, hp2, rfl⟩
      rfl
    cases cacheL with
    | some entry =>
        simp only [learning_paths_list] at hok
        injection hok with hd h2 h3 h4 h5
        exact hmem _ hd.symm
    | none =>
        simp only [learning_paths_list] at hok
        split at hok
        next => cases hok
        next =>
          split at hok
          next => cases hok
          next =>
            injection hok with hd h2 h3 h4 h5
            exact hmem _ hd.symm
  · intro cdata hok it hit
    have hform : ∀ b : CertItemBase, (certOverlay dbC userC b).progress
        = pyInt (((lppLookup dbC userC (certOverlay dbC userC b).id).map
            (fun r => r.progress)).getD 0) := by
      intro b
      unfold certOverlay
      cases hfind : lppLookup dbC userC b.id <;> simp [hfind, pyInt]
    have hmem : ∀ bs : List CertItemBase, cdata = bs.map (certOverlay dbC userC) →
        it.progress
          = pyInt (((lppLookup dbC userC it.id).map (fun r => r.progress)).getD 0) := by
      intro bs hdata
      subst hdata
      rcases List.mem_map.1 hit with ⟨b, hb, rfl⟩
      exact hform b
    cases cacheC with
    | some entry =>
        simp only [certificate_list] at hok
        injection hok with hd
        exact hmem _ hd.symm
    | none =>
        simp only [certificate_list] at hok
        split at hok
        next => cases hok
        next =>
          split at hok
          next => cases hok
          next =>
            injection hok with hd
            exact hmem _ hd.symm

/-- Database for the listing/certificate witnesses: one stored path
progress of 200/3 (= 66.67). -/
def dbL : DB := { emptyDB with
  learning_path_progress := [⟨"u", 1, 200/3, 3, 4, false, none⟩] }

/-- Cached structural item for path 1. -/
def pitemL : PathItem := ⟨"uuid-1", "P", "beginner", "", "1h", "https://x", true, ""⟩

/-- Listing cache entry holding `pitemL`. -/
def entryL : ListCacheEntry := ⟨[pitemL], 1, 1⟩

/-- The listing item produced for `pitemL` and user `u`. -/
def itemL : ListItem := ⟨"uuid-1", "P", "beginner", "", "1h", "https://x", true, "", 66⟩

/-- Certificate cache entry for path 1. -/
def centryL : CertCacheEntry := ⟨[⟨"uuid-1", "P", ""⟩], 1, 1⟩

/-- The certificate item produced for that entry and user `u`. -/
def certItemL : CertItem := ⟨"uuid-1", "P", "", 66, none⟩

/-- C10 witness: the toggle on `dbW` reports the truncation 66 of the
stored 200/3, as do the listing and certificate endpoints on `dbL`. -/
theorem c10_witness :
    (∃ lecture module,
        dbW.lectures.find? (fun l => l.lecture_id == 1) = some lecture ∧
        dbW.modules.find? (fun m => m.module_id == lecture.module_id) = some module ∧
        ∃ mrow prow,
          dbW3.module_progress.find? (modPred "u" lecture.module_id) = some mrow ∧
          respW.module_progress = pyInt mrow.progress ∧
          dbW3.learning_path_progress.find? (lppPred "u" module.learning_path_id)
            = some prow ∧
          respW.path_progress = pyInt prow.progress) ∧
    itemL.progress = pyInt (((lppLookup dbL "u" itemL.id).map (fun r => r.progress)).getD 0) ∧
    certItemL.progress
      = pyInt (((lppLookup dbL "u" certItemL.id).map (fun r => r.progress)).getD 0) := by
  have h := c10_progress_int_truncation dbW "u" 1 7 dbW3 respW dbL (some entryL) "X" "Y" "u" 1
    dbL (some centryL) "X" "Y" "u"
  refine ⟨h.1 (by decide), ?_, ?_⟩
  · exact h.2.1 [itemL] 1 1 1 10 (by decide) itemL (by decide)
  · exact h.2.2 [certItemL] (by decide) certItemL (by decide)

/-! ## Claim C7 -/

/-- C7 counterexample: for an (institution, batch) pair with no
`InstituteBatchLearningPath` mapping, the listing endpoint serves a 200
page from a still-live (stale) cache entry instead of returning 404 — the
database is only consulted on a cache miss. -/
theorem c7_counterexample :
    emptyDB.mappings = [] ∧
    (learning_paths_list emptyDB (some entryL) "X" "Y" "u" 1).1
      = .ok [⟨"uuid-1", "P", "beginner", "", "1h", "https://x", true, "", 0⟩] 1 1 1 10 ∧
    (learning_paths_list emptyDB (some entryL) "X" "Y" "u" 1).1
      ≠ .err 404 "No learning paths found for this institute and batch" := by decide

/-- C7 amended: on a cache miss for the `(institution, batch)` key, when
no mapping row exists for that pair the listing returns 404 with the
explanatory message. -/
theorem c7_amended_no_mapping_404
    (db : DB) (institute batch user : String) (page : Int)
    (hmap : listMappings db institute batch = []) :
    (learning_paths_list db none institute batch user page).1
      = .err 404 "No learning paths found for this institute and batch" := by
  simp only [learning_paths_list]
  rw [hmap]
  rfl

/-- C7 amended witness on the empty database. -/
theorem c7_amended_witness :
    (learning_paths_list emptyDB none "X" "Y" "u" 1).1
      = .err 404 "No learning paths found for this institute and batch" :=
  c7_amended_no_mapping_404 emptyDB "X" "Y" "u" 1 (by decide)

/-! ## Claim C6 -/

/-- Creation request whose level is upper-case `BEGINNER`. -/
def reqC6 : CreateReq :=
  ⟨some "T", some "BEGINNER", some "1h", some "https://x", none, none, none,
   some [⟨some "M", none⟩]⟩

/-- C6 counterexample: `"BEGINNER"` is not in `{beginner, intermediate,
advanced}`, yet the endpoint accepts it with 201 and creates rows — the
code lower-cases the level before the membership test, so the validation
is case-insensitive, not literal membership. -/
theorem c6_counterexample :
    "BEGINNER" ∉ validLevels ∧
    (create_learning_path_with_modules emptyDB 1 (fun i => 10 + i) reqC6).2 = 201 ∧
    (create_learning_path_with_modules emptyDB 1 (fun i => 10 + i) reqC6).1 ≠ emptyDB := by
  decide

set_option maxHeartbeats 1600000 in
/-- C6 amended: creation validates title length at most 100, level
case-insensitively in `{beginner, intermediate, advanced}` (it is stored
lower-cased), and thumbnail matching `^https?://`; any violation of these
returns 400 and leaves the database unchanged. -/
theorem c6_amended_validation_400
    (db : DB) (pid : Nat) (mid : Nat → Nat) (req : CreateReq)
    (title level thumb : String)
    (ht : req.title = some title) (hl : req.level = some level)
    (hu : req.thumbnail = some thumb)
    (hviol : 100 < title.length ∨ pyLower level ∉ validLevels ∨ urlOk thumb = false) :
    create_learning_path_with_modules db pid mid req = (db, 400) := by
  unfold create_learning_path_with_modules
  rw [ht, hl, hu]
  split
  next => rfl
  next =>
    split
    next => rfl
    next =>
      split
      next => rfl
      next =>
        split
        next => rfl
        next =>
          split
          next => rfl
          next h5 =>
            split
            next => rfl
            next h6 =>
              split
              next => rfl
              next h7 =>
                exfalso
                simp only [not_not, Option.getD_some] at h5 h6 h7
                rcases hviol with hv | hv | hv
                · exact h5 hv
                · exact hv h6
                · simp [hv] at h7

/-- Creation request with a malformed thumbnail URL. -/
def reqC6bad : CreateReq :=
  ⟨some "T", some "beginner", some "1h", some "ftp://x", none, none, none,
   some [⟨some "M", none⟩]⟩

/-- C6 amended witness: a malformed thumbnail is rejected with 400 and the
database is unchanged. -/
theorem c6_amended_witness :
    create_learning_path_with_modules emptyDB 1 (fun i => 10 + i) reqC6bad
      = (emptyDB, 400) :=
  c6_amended_validation_400 emptyDB 1 (fun i => 10 + i) reqC6bad "T" "beginner" "ftp://x"
    rfl rfl rfl (Or.inr (Or.inr (by decide)))

/-! ## Claim C5 -/

/-- Database for the C5 counterexample: a path with a module and a
lecture, and no progress rows at all. -/
def dbC5 : DB := { emptyDB with
  learning_paths := [⟨1, "P", "beginner", "1h", "https://x", true, "", ""⟩],
  modules := [⟨1, 1, "M", ""⟩],
  lectures := [⟨1, 1, "L1", "", none⟩] }

/-- C5 counterexample: a first-time detail fetch succeeds, yet creates no
per-entity progress rows — storage is unchanged after the read, so the
handler has no get-or-create write side effect. -/
theorem c5_counterexample :
    dbC5.lecture_progress = [] ∧ dbC5.module_progress = [] ∧
    dbC5.learning_path_progress = [] ∧
    ((learning_path_detail dbC5 none 1 "u").2.2).isSome = true ∧
    (learning_path_detail dbC5 none 1 "u").1 = dbC5 := by decide

/-- C5 amended: `learning_path_detail` performs no storage writes — the
database after any call equals the database before; a user with no
`LearningPathProgress` row is rendered with the zero-state default
(top-level progress 0) in the response only; and a first-time (cache
miss) response carries no nested user fields at all: the shallow
`response.copy()` shares the nested dicts, so the cache-stripping `pop`s
remove the per-module / per-lecture / assignment / assessment user keys
from the returned response rather than rendering zero-state defaults
there. -/
theorem c5_amended_read_only
    (db : DB) (cache : Option DetailCache) (pid : Nat) (user : String) :
    (learning_path_detail db cache pid user).1 = db ∧
    (∀ lp resp, db.learning_paths.find? (fun p => p.id == pid) = some lp →
      (learning_path_detail db none pid user).2.2 = some resp →
      (db.learning_path_progress.find? (lppPred user lp.id) = none →
        resp.progress = 0) ∧
      (∀ m ∈ resp.modules, m.progress = none ∧ m.is_completed = none ∧
        (∀ lec ∈ m.lectures, lec.is_viewed = none ∧ lec.completed_at = none) ∧
        (∀ a, m.assignment = some a →
          a.status = none ∧ a.score = none ∧ a.attempted_at = none)) ∧
      (∀ a, resp.assessment = some a →
        a.attempt_number = none ∧ a.score = none ∧ a.status = none ∧
          a.attempted_at = none)) := by
  constructor
  · unfold learning_path_detail
    cases cache with
    | some c => cases h : detailHit db pid c user <;> simp [h]
    | none => cases h : db.learning_paths.find? (fun p => p.id == pid) <;> simp [h]
  · intro lp resp hfind hresp
    simp only [learning_path_detail] at hresp
    rw [hfind] at hresp
    injection hresp with h2
    subst h2
    refine ⟨?_, ?_, ?_⟩
    · intro hnone
      simp [detailMissReturned, popNestedUserFields, detailResponsePreCache,
        buildUserCtx, hnone]
    · intro m hm
      rcases List.mem_map.1 hm with ⟨m0, _, rfl⟩
      refine ⟨rfl, rfl, ?_, ?_⟩
      · intro lec hlec
        rcases List.mem_map.1 hlec with ⟨l0, _, rfl⟩
        exact ⟨rfl, rfl⟩
      · intro a ha
        simp only [popModuleUserFields] at ha
        cases h0 : m0.assignment with
        | none => rw [h0] at ha; simp at ha
        | some a0 =>
            rw [h0] at ha
            simp only [Option.map_some'] at ha
            injection ha with h2
            subst h2
            exact ⟨rfl, rfl, rfl⟩
    · intro a ha
      simp only [detailMissReturned, popNestedUserFields] at ha
      cases h0 : (detailResponsePreCache db lp user).assessment with
      | none => rw [h0] at ha; simp at ha
      | some a0 =>
          rw [h0] at ha
          simp only [Option.map_some'] at ha
          injection ha with h2
          subst h2
          exact ⟨rfl, rfl, rfl, rfl⟩

/-- The learning path row of `dbC5`. -/
def lpC5 : LearningPathRow := ⟨1, "P", "beginner", "1h", "https://x", true, "", ""⟩

/-- The response of the C5 witness fetch (the returned, nested-stripped
miss response). -/
def respC5 : DetailResponse := detailMissReturned dbC5 lpC5 "u"

/-- C5 amended witness on the concrete first-time fetch. -/
theorem c5_amended_witness :
    (learning_path_detail dbC5 none 1 "u").1 = dbC5 ∧ respC5.progress = 0 ∧
    ∀ m ∈ respC5.modules, m.progress = none := by
  have h := c5_amended_read_only dbC5 none 1 "u"
  have h2 := h.2 lpC5 respC5 (by decide) (by decide)
  exact ⟨h.1, h2.1 (by decide), fun m hm => (h2.2.1 m hm).1⟩

/-! ## Claim C4 -/

theorem strip_pop_module (m : ModuleJson) :
    stripModule (popModuleUserFields m) = stripModule m := by
  simp only [stripModule, popModuleUserFields, List.map_map, Option.map_map]
  have h1 : (stripLecture ∘ popLectureUserFields) = stripLecture :=
    funext (fun l => rfl)
  have h2 : (stripAssignment ∘ popAssignmentUserFields) = stripAssignment :=
    funext (fun a => rfl)
  rw [h1, h2]

theorem strip_popNested (r : DetailResponse) :
    stripDetail (popNestedUserFields r) = stripDetail r := by
  simp only [stripDetail, popNestedUserFields, List.map_map, Option.map_map]
  have h1 : (stripModule ∘ popModuleUserFields) = stripModule :=
    funext (fun m => strip_pop_module m)
  have h2 : (stripAssessment ∘ popAssessmentUserFields) = stripAssessment :=
    funext (fun a => rfl)
  rw [h1, h2]

theorem strip_hit_module (ctx : UserCtx) (mc : ModuleCache) :
    stripModule (hitModuleJson ctx mc) = mc := by
  simp only [stripModule, hitModuleJson, List.map_map, Option.map_map]
  have h1 : (stripLecture ∘ hitLectureJson ctx) = id := funext (fun lc => rfl)
  have h2 : (stripAssignment ∘ hitAssignmentJson ctx) = id := funext (fun ac => rfl)
  rw [h1, h2, List.map_id, Option.map_id]
  rfl

theorem strip_hitResponse (ctx : UserCtx) (cache : DetailCache) :
    stripDetail (hitResponse ctx cache) = cache := by
  simp only [stripDetail, hitResponse, List.map_map, Option.map_map]
  have h1 : (stripModule ∘ hitModuleJson ctx) = id :=
    funext (fun mc => strip_hit_module ctx mc)
  have h2 : (stripAssessment ∘ hitAssessmentJson ctx) = id := funext (fun ac => rfl)
  rw [h1, h2, List.map_id, Option.map_id]
  rfl

/-- Database for the C4 counterexample: a path with one module and one
lecture, stored path progress 1/2 and stored module progress 1/2. -/
def dbC4 : DB := { emptyDB with
  learning_paths := [⟨1, "P", "beginner", "1h", "https://x", true, "", ""⟩],
  modules := [⟨1, 1, "M", ""⟩],
  lectures := [⟨1, 1, "L1", "", none⟩],
  module_progress := [⟨"u", 1, 1/2, false⟩],
  learning_path_progress := [⟨"u", 1, 1/2, 3, 4, false, none⟩] }

/-- The path row of `dbC4`. -/
def lpC4 : LearningPathRow := ⟨1, "P", "beginner", "1h", "https://x", true, "", ""⟩

/-- The returned miss response of `dbC4` for user `u`. -/
def respC4 : DetailResponse := detailMissReturned dbC4 lpC4 "u"

/-- C4 counterexample: from one and the same storage state, the returned
cache-miss response keeps the raw top-level progress 1/2 but — the shallow
`response.copy()` sharing the nested dicts with the cache skeleton — has
lost the module's `progress` key entirely, while the cache-hit overlay of
the very skeleton that miss cached reports top-level `int(1/2) = 0` and a
present module progress key; the two responses are not equal. -/
theorem c4_counterexample :
    (learning_path_detail dbC4 none 1 "u").2.2 = some respC4 ∧
    respC4.progress = 1/2 ∧
    respC4.modules.map (fun m => m.progress) = [none] ∧
    (detailHit dbC4 1 (stripDetail (detailResponsePreCache dbC4 lpC4 "u")) "u").map
      (fun r => r.progress) = some 0 ∧
    (detailHit dbC4 1 (stripDetail (detailResponsePreCache dbC4 lpC4 "u")) "u").map
      (fun r => r.modules.map (fun m => m.progress)) = some [some 0] ∧
    detailHit dbC4 1 (stripDetail (detailResponsePreCache dbC4 lpC4 "u")) "u"
      ≠ some respC4 := by decide

/-- C4 amended: the cache-hit response and the returned cache-miss
response from the same storage state agree only structurally: stripping
either of its user fields yields the same skeleton, their top-level
`updated_at` agree, and the hit's top-level progress is `int()` of the
miss's raw value.  They are not the same response: the shallow
`response.copy()` lets the cache-stripping `pop`s delete every nested
user field from the returned miss response, while the hit path re-reads
those fields from storage and includes them. -/
theorem c4_amended_hit_vs_miss
    (db : DB) (pid : Nat) (user : String) (lp : LearningPathRow)
    (hlp : db.learning_paths.find? (fun p => p.id == pid) = some lp) :
    ∃ H, detailHit db pid (stripDetail (detailResponsePreCache db lp user)) user
        = some H ∧
      stripDetail H = stripDetail (detailMissReturned db lp user) ∧
      H.updated_at = (detailMissReturned db lp user).updated_at ∧
      H.progress = ((pyInt (detailMissReturned db lp user).progress : ℚ)) ∧
      (∀ m ∈ H.modules, m.progress.isSome = true ∧ m.is_completed.isSome = true) ∧
      (∀ m ∈ (detailMissReturned db lp user).modules,
        m.progress = none ∧ m.is_completed = none) := by
  refine ⟨hitResponse (buildUserCtx db lp user)
      (stripDetail (detailResponsePreCache db lp user)), ?_, ?_, ?_, ?_, ?_, ?_⟩
  · unfold detailHit
    rw [hlp, Option.map_some']
  · rw [strip_hitResponse]
    unfold detailMissReturned
    rw [strip_popNested]
  · rfl
  · rfl
  · intro m hm
    rcases List.mem_map.1 hm with ⟨mc, _, rfl⟩
    exact ⟨rfl, rfl⟩
  · intro m hm
    rcases List.mem_map.1 hm with ⟨m0, _, rfl⟩
    exact ⟨rfl, rfl⟩

/-- Database for the C4 amended witness: a path with a module, a lecture
and fractional stored progress values. -/
def dbW4 : DB := { emptyDB with
  learning_paths := [⟨1, "P", "beginner", "1h", "https://x", true, "", ""⟩],
  modules := [⟨1, 1, "M", ""⟩],
  lectures := [⟨1, 1, "L1", "", none⟩],
  module_progress := [⟨"u", 1, 50, false⟩],
  learning_path_progress := [⟨"u", 1, 50, 3, 4, false, none⟩] }

/-- The path row of `dbW4`. -/
def lpW4 : LearningPathRow := ⟨1, "P", "beginner", "1h", "https://x", true, "", ""⟩

/-- C4 amended witness at the concrete database `dbW4`. -/
theorem c4_amended_witness :
    ∃ H, detailHit dbW4 1 (stripDetail (detailResponsePreCache dbW4 lpW4 "u")) "u"
        = some H ∧
      stripDetail H = stripDetail (detailMissReturned dbW4 lpW4 "u") ∧
      H.updated_at = (detailMissReturned dbW4 lpW4 "u").updated_at ∧
      H.progress = ((pyInt (detailMissReturned dbW4 lpW4 "u").progress : ℚ)) ∧
      (∀ m ∈ H.modules, m.progress.isSome = true ∧ m.is_completed.isSome = true) ∧
      (∀ m ∈ (detailMissReturned dbW4 lpW4 "u").modules,
        m.progress = none ∧ m.is_completed = none) :=
  c4_amended_hit_vs_miss dbW4 1 "u" lpW4 (by decide)
